import Mathlib

/-!
Avatar mesh synthesis of `src/pages/AvatarPage.jsx`.

A shallow embedding of the avatar viewer of the virtual fitting room:
the colour lookup `getClothingItemColor`, the mesh update effect of
`AvatarViewer` (clearing loop, proportional stacking, target adjustment),
its scene setup, render loop, resize handler and cleanup, the schedule on
which the component runs its two effects, the profile updaters of
`AvatarPage`, and `toggleClothing` of `src/components/ClothingList.jsx`.

Calls into three.js and the DOM are recorded as state changes or call counts.
What `renderer.render()` computes is not modelled. What `OrbitControls.update()`
does to the target and the camera is a parameter of the target adjustment,
whose guard compares the target exactly; in the render loop the call is only
counted.

JavaScript numbers are modelled by rationals: every statement below is about
the exact-arithmetic reading of the source, not about IEEE-754 rounding.
Where a rounding decides a branch, the rounded operation is a parameter: the
addition in `handleHeightChange`, whose sum is cut to two decimals.
A value that may be `undefined` is an `Option`.
-/

namespace AvatarPage

/-! ## Data model -/

/-- Entry of `CLOTHING_CATALOG`: `{ id, category, color, name }`. -/
structure ClothingItem where
  id : String
  category : String
  color : String
  name : String
  deriving DecidableEq, Repr

/-- The object `selectedClothes`: an ordered key/value record; a key that is
absent reads as `undefined` (`none`). -/
abbrev SelectedClothes := List (String × String)

/-- The profile object held by `AvatarPage`. -/
structure Profile where
  id : String
  name : String
  height : ℚ
  bodyType : String
  selectedClothes : SelectedClothes
  deriving DecidableEq, Repr

/-- A colour handed to `MeshLambertMaterial`: a hex string or a number. -/
inductive Color where
  | hex (code : String)
  | num (value : Nat)
  deriving DecidableEq, Repr

/-- The two geometry constructors the effect uses. -/
inductive Geometry where
  | box (width height depth : ℚ)
  | sphere (radius : ℚ) (widthSegments heightSegments : Nat)
  deriving DecidableEq, Repr

/-- A `MeshLambertMaterial`, of which only the colour is set. -/
structure Material where
  color : Color
  deriving DecidableEq, Repr

/-- A `THREE.Vector3`. -/
structure Vector3 where
  x : ℚ
  y : ℚ
  z : ℚ
  deriving DecidableEq, Repr

/-- A child of the avatar group. The clearing loop guards both `geometry`
and `material`, so either may be missing. -/
structure Mesh where
  geometry : Option Geometry
  material : Option Material
  position : Vector3
  deriving DecidableEq, Repr

/-- The avatar group together with the record of `dispose()` calls made on
geometries and materials. -/
structure AvatarState where
  children : List Mesh
  disposedGeometries : List Geometry
  disposedMaterials : List Material
  deriving DecidableEq, Repr

/-! ## Constants (lines 8-48) -/

/-- `TAILWIND_TO_HEX` (lines 8-17). -/
def TAILWIND_TO_HEX : List (String × String) :=
  [ ("bg-white", "#ffffff"),
    ("bg-gray-900", "#111827"),
    ("bg-red-600", "#dc2626"),
    ("bg-blue-600", "#2563eb"),
    ("bg-gray-800", "#1f2937"),
    ("bg-yellow-700", "#b45309"),
    ("bg-amber-800", "#9a3412"),
    ("bg-gray-400", "#9ca3af") ]

/-- `CLOTHING_CATALOG` (lines 38-48). -/
def CLOTHING_CATALOG : List ClothingItem :=
  [ { id := "t-shirt-white", category := "top", color := "bg-white", name := "White T-Shirt" },
    { id := "t-shirt-black", category := "top", color := "bg-gray-900", name := "Black T-Shirt" },
    { id := "t-shirt-red", category := "top", color := "bg-red-600", name := "Red T-Shirt" },
    { id := "jeans-blue", category := "bottom", color := "bg-blue-600", name := "Blue Jeans" },
    { id := "jeans-black", category := "bottom", color := "bg-gray-800", name := "Black Jeans" },
    { id := "shorts-khaki", category := "bottom", color := "bg-yellow-700", name := "Khaki Shorts" },
    { id := "sneakers-black", category := "shoes", color := "bg-gray-900", name := "Black Sneakers" },
    { id := "sneakers-white", category := "shoes", color := "bg-white", name := "White Sneakers" },
    { id := "boots-brown", category := "shoes", color := "bg-amber-800", name := "Brown Boots" } ]

/-- `MOCK_PROFILE` (lines 25-35). -/
def MOCK_PROFILE : Profile :=
  { id := "u4321",
    name := "User Avatar",
    height := 1.71,
    bodyType := "Average",
    selectedClothes :=
      [ ("top", "t-shirt-red"), ("bottom", "shorts-khaki"), ("shoes", "boots-brown") ] }

/-! ## Colour lookup (lines 74-79) -/

/-- The JavaScript `a || b` on a string that may be undefined: the right
operand is taken when the left one is undefined or the empty string. -/
def jsOr (a : Option String) (b : String) : String :=
  match a with
  | some s => if s = "" then b else s
  | none => b

/-- `getClothingItemColor(id)`: find the catalog entry, take its colour class
(or `bg-gray-400`), and map it through `TAILWIND_TO_HEX`. -/
def getClothingItemColor (id : Option String) : String :=
  let item := CLOTHING_CATALOG.find? (fun c => decide (some c.id = id))
  let tailwindClass :=
    match item with
    | some it => it.color
    | none => "bg-gray-400"
  jsOr (TAILWIND_TO_HEX.lookup tailwindClass) "#9ca3af"

/-! ## Segment proportions (lines 187-201) -/

/-- `const bodyWidth = height * 0.2`. -/
def bodyWidth (height : ℚ) : ℚ := height * 0.2

/-- `const headProportion = 0.1`. -/
def headProportion : ℚ := 0.1

/-- `const headRadius = height * headProportion / 2`. -/
def headRadius (height : ℚ) : ℚ := height * headProportion / 2

/-- `const remainingHeight = height - (headRadius * 2)`. -/
def remainingHeight (height : ℚ) : ℚ := height - (headRadius height * 2)

/-- `const shoeHeight = remainingHeight * 0.05`. -/
def shoeHeight (height : ℚ) : ℚ := remainingHeight height * 0.05

/-- `const topHeight = remainingHeight * 0.40`. -/
def topHeight (height : ℚ) : ℚ := remainingHeight height * 0.40

/-- `const bottomHeight = remainingHeight * 0.55`. -/
def bottomHeight (height : ℚ) : ℚ := remainingHeight height * 0.55

/-- `const neckHeight = 0.05 * headRadius`. -/
def neckHeight (height : ℚ) : ℚ := 0.05 * headRadius height

/-- The fixed skin tone `0xffdbac` of the neck and the head. -/
def skinTone : Color := Color.num 0xffdbac

/-! ## Mesh construction (lines 203-251) -/

/-- A `new THREE.Mesh(geo, mat)` placed at `(x, y, z)`. -/
def mkMesh (geo : Geometry) (color : Color) (x y z : ℚ) : Mesh :=
  { geometry := some geo, material := some { color := color }, position := ⟨x, y, z⟩ }

/-- The six meshes in the order in which the effect adds them to the group.
`currentY` is the running accumulator of the source, rebound at each `+=`. -/
def avatarMeshes (height : ℚ) (selectedClothes : SelectedClothes) : List Mesh :=
  let currentY : ℚ := 0
  -- 1. shoes
  let currentY := currentY + shoeHeight height / 2
  let shoeGeo := Geometry.box (bodyWidth height * 0.6) (shoeHeight height) (bodyWidth height * 0.8)
  let shoeMat := Color.hex (getClothingItemColor (selectedClothes.lookup "shoes"))
  let leftShoe := mkMesh shoeGeo shoeMat (-bodyWidth height * 0.25) currentY 0
  let rightShoe := mkMesh shoeGeo shoeMat (bodyWidth height * 0.25) currentY 0
  -- 2. bottom
  let currentY := currentY + (shoeHeight height / 2 + bottomHeight height / 2)
  let bottomGeo :=
    Geometry.box (bodyWidth height * 1.05) (bottomHeight height) (bodyWidth height * 0.45)
  let bottomMat := Color.hex (getClothingItemColor (selectedClothes.lookup "bottom"))
  let bottomMesh := mkMesh bottomGeo bottomMat 0 currentY 0
  -- 3. top
  let currentY := currentY + (bottomHeight height / 2 + topHeight height / 2)
  let topGeo := Geometry.box (bodyWidth height * 1.1) (topHeight height) (bodyWidth height * 0.45)
  let topMat := Color.hex (getClothingItemColor (selectedClothes.lookup "top"))
  let topMesh := mkMesh topGeo topMat 0 currentY 0
  -- 4. neck
  let currentY := currentY + (topHeight height / 2 + neckHeight height / 2)
  let neckGeo := Geometry.box (bodyWidth height * 0.3) (neckHeight height) (bodyWidth height * 0.3)
  let neckMesh := mkMesh neckGeo skinTone 0 currentY 0
  -- 5. head
  let currentY := currentY + (neckHeight height / 2 + headRadius height)
  let headGeo := Geometry.sphere (headRadius height) 32 16
  let headMesh := mkMesh headGeo skinTone 0 currentY 0
  [leftShoe, rightShoe, bottomMesh, topMesh, neckMesh, headMesh]

/-- `avatarGroupRef.current.add(mesh)` for a fresh mesh: it becomes the last
child. -/
def addMesh (st : AvatarState) (mesh : Mesh) : AvatarState :=
  { st with children := st.children ++ [mesh] }

/-- Lines 187-251: build the six meshes and add them, in order, to the group. -/
def addAvatarMeshes (height : ℚ) (selectedClothes : SelectedClothes)
    (st : AvatarState) : AvatarState :=
  (avatarMeshes height selectedClothes).foldl addMesh st

/-! ## Clearing loop (lines 180-185) -/

/-- One iteration of the loop body on a group whose first child is `mesh`:
dispose its geometry and material when present, then `remove(mesh)`, which
deletes the first occurrence of `mesh` among the children. -/
def clearStep (st : AvatarState) (mesh : Mesh) : AvatarState :=
  { children := st.children.erase mesh,
    disposedGeometries :=
      match mesh.geometry with
      | some g => st.disposedGeometries ++ [g]
      | none => st.disposedGeometries,
    disposedMaterials :=
      match mesh.material with
      | some m => st.disposedMaterials ++ [m]
      | none => st.disposedMaterials }

/-- The loop `while (children.length > 0) { ... }`, with a step budget: `none`
when the budget runs out before the group is empty. -/
def clearPrevious : Nat → AvatarState → Option AvatarState
  | 0, _ => none
  | fuel + 1, st =>
    match st.children with
    | [] => some st
    | mesh :: _ => clearPrevious fuel (clearStep st mesh)

/-- The mesh update effect up to line 251: clear the group, then add the
avatar meshes for `profile.height` and `selectedClothes`. -/
def synthesisPass (fuel : Nat) (profile : Profile) (selectedClothes : SelectedClothes)
    (st : AvatarState) : Option AvatarState :=
  (clearPrevious fuel st).map (addAvatarMeshes profile.height selectedClothes)

/-- A sequence of passes, one per (profile, selection) update, oldest first. -/
def synthesisPasses (fuel : Nat) :
    List (Profile × SelectedClothes) → AvatarState → Option AvatarState
  | [], st => some st
  | (profile, selectedClothes) :: rest, st =>
    (synthesisPass fuel profile selectedClothes st).bind (synthesisPasses fuel rest)

/-! ## Measurements on meshes -/

/-- The dimensions of a geometry: width, height, depth of a box; the radius
of a sphere. -/
def Geometry.dimensions : Geometry → List ℚ
  | Geometry.box w h d => [w, h, d]
  | Geometry.sphere r _ _ => [r]

/-- Vertical extent of a geometry: the height of a box, the diameter of a
sphere. -/
def Geometry.extentY : Geometry → ℚ
  | Geometry.box _ h _ => h
  | Geometry.sphere r _ _ => 2 * r

/-- Every dimension of the mesh's geometry is strictly positive (and the
mesh has a geometry). -/
def Mesh.positiveDimensions (m : Mesh) : Prop :=
  match m.geometry with
  | some g => ∀ d ∈ g.dimensions, 0 < d
  | none => False

/-- The y coordinate of the top face (or pole) of a mesh. -/
def Mesh.topY (m : Mesh) : ℚ :=
  match m.geometry with
  | some g => m.position.y + g.extentY / 2
  | none => m.position.y

/-- The colour of a mesh's material, when it has one. -/
def Mesh.color (m : Mesh) : Option Color := m.material.map Material.color

/-! ## Height handler (lines 307-317) -/

/-- The value of `parseFloat(x.toFixed(2))` for a double whose exact value is
`x`. `toFixed` works on the absolute value, takes the integer `n` with
`n / 100` nearest to it (the larger one on a tie) and restores the sign; from
`10^21` on it prints the number itself. The decimal string is read back as
the number it denotes. -/
def parseFloatToFixed2 (x : ℚ) : ℚ :=
  if (10 : ℚ) ^ 21 ≤ |x| then x
  else if x < 0 then -((⌊(-x) * 100 + 1 / 2⌋ : ℚ) / 100)
  else (⌊x * 100 + 1 / 2⌋ : ℚ) / 100

/-- Rounding to two decimals, as the specification of the height handler words
it: the nearest multiple of 0.01, a tie going away from zero. -/
def roundTwoDecimals (x : ℚ) : ℚ :=
  if x < 0 then -((⌊(-x) * 100 + 1 / 2⌋ : ℚ) / 100)
  else (⌊x * 100 + 1 / 2⌋ : ℚ) / 100

/-- The state updater passed to `setProfile` by `handleHeightChange(delta)`.
The sum `prev.height + delta` of line 310 is a double-precision addition,
whose result need not be the exact sum (1.71 + 0.005 is a double just below
1.715). The addition is therefore the parameter `fadd`, and what is proved of
the handler is proved for every addition. -/
def handleHeightChange (fadd : ℚ → ℚ → ℚ) (delta : ℚ) (prev : Option Profile) :
    Option Profile :=
  match prev with
  | none => none
  | some p =>
    let newHeight := parseFloatToFixed2 (fadd p.height delta)
    if newHeight ≥ 1.0 ∧ newHeight ≤ 2.5 then some { p with height := newHeight }
    else some p

/-- A group left over from earlier rendering, used as a concrete starting
point: one child without geometry or material and one unit cube. -/
def staleGroup : AvatarState :=
  { children :=
      [ { geometry := none, material := none, position := ⟨0, 0, 0⟩ },
        mkMesh (Geometry.box 1 1 1) (Color.hex "#ffffff") 0 3 0 ],
    disposedGeometries := [],
    disposedMaterials := [] }

/-- The state updater passed to `setProfile` by `handleBodyTypeChange(newType)`. -/
def handleBodyTypeChange (newType : String) (prev : Option Profile) : Option Profile :=
  match prev with
  | some p => some { p with bodyType := newType }
  | none => none

/-- The state updater passed to `setProfile` by `handleClothingSelect`:
`{ ...prev.selectedClothes, [category]: itemId }`. A key already present keeps
its place and takes the new value; a new key goes last. -/
def setKey (category itemId : String) : SelectedClothes → SelectedClothes
  | [] => [(category, itemId)]
  | (k, v) :: rest =>
    if k = category then (k, itemId) :: rest else (k, v) :: setKey category itemId rest

/-- The state updater passed to `setProfile` by
`handleClothingSelect(category, itemId)` (lines 323-334). -/
def handleClothingSelect (category itemId : String) (prev : Option Profile) : Option Profile :=
  match prev with
  | none => none
  | some p => some { p with selectedClothes := setKey category itemId p.selectedClothes }

/-! ## Viewer state (lines 64-71) -/

/-- The container `div`: its layout size and the DOM elements it holds. -/
structure Container where
  clientWidth : Nat
  clientHeight : Nat
  children : List Nat
  deriving DecidableEq, Repr

/-- A `THREE.PerspectiveCamera`; `projectionUpdates` counts the calls of
`updateProjectionMatrix()`. -/
structure Camera where
  fov : ℚ
  aspect : ℚ
  near : ℚ
  far : ℚ
  position : Vector3
  projectionUpdates : Nat
  deriving DecidableEq, Repr

/-- A `THREE.WebGLRenderer`: its canvas (`domElement`) and its size. -/
structure Renderer where
  domElement : Nat
  width : Nat
  height : Nat
  deriving DecidableEq, Repr

/-- The `OrbitControls`; `updateCalls` counts the calls of `update()`. What a
call does to the target and to the camera is library code: the render loop
records the call only, and the target adjustment, whose guard compares the
target exactly, takes it as the parameter `OrbitUpdate`. -/
structure OrbitControls where
  target : Vector3
  enableDamping : Bool
  dampingFactor : ℚ
  updateCalls : Nat
  deriving DecidableEq, Repr

/-- What the setup adds to the scene. -/
inductive SceneObject where
  | avatarGroup
  | ambientLight (color : Nat) (intensity : ℚ)
  | directionalLight (color : Nat) (intensity : ℚ) (position : Vector3)
  | groundPlane (width height : ℚ) (color : Nat)
  deriving DecidableEq, Repr

/-- A `THREE.Scene`. -/
structure Scene where
  background : Nat
  objects : List SceneObject
  deriving DecidableEq, Repr

/-- The refs of one `AvatarViewer` and the part of the browser it talks to.
`container` is the DOM node and `containerAttached` says whether
`containerRef.current` points to it. `pendingFrames` are the frame requests
not yet fired or cancelled, `resizeListeners` the registered `handleResize`
closures; `disposedRenderers`, `framesRendered`, `constructions` and
`cleanupRuns` record calls. -/
structure Viewer where
  container : Container
  containerAttached : Bool
  sceneRef : Option Scene
  cameraRef : Option Camera
  rendererRef : Option Renderer
  controlsRef : Option OrbitControls
  avatarGroup : AvatarState
  animationFrameIdRef : Option Nat
  pendingFrames : List Nat
  nextFrameId : Nat
  nextElement : Nat
  resizeListeners : List Nat
  disposedRenderers : List Nat
  framesRendered : Nat
  constructions : Nat
  cleanupRuns : Nat
  deriving DecidableEq, Repr

/-- What the cleanup closure captures from its setup: the renderer's canvas
and the `handleResize` it registered. -/
structure Cleanup where
  domElement : Nat
  listener : Nat
  deriving DecidableEq, Repr

/-- A viewer before its first setup, on a container of the given size. -/
def freshViewer (width height : Nat) : Viewer :=
  { container := { clientWidth := width, clientHeight := height, children := [] },
    containerAttached := true,
    sceneRef := none, cameraRef := none, rendererRef := none, controlsRef := none,
    avatarGroup := { children := [], disposedGeometries := [], disposedMaterials := [] },
    animationFrameIdRef := none,
    pendingFrames := [], nextFrameId := 1, nextElement := 1,
    resizeListeners := [], disposedRenderers := [],
    framesRendered := 0, constructions := 0, cleanupRuns := 0 }

/-! ## Scene setup, render loop, resize and cleanup (lines 82-173) -/

/-- `animate` (lines 135-139): advance the controls, render one frame, request
the next frame and store its id. -/
def animate (v : Viewer) : Viewer :=
  { v with
    controlsRef := v.controlsRef.map (fun c => { c with updateCalls := c.updateCalls + 1 }),
    framesRendered := v.framesRendered + 1,
    pendingFrames := v.pendingFrames ++ [v.nextFrameId],
    nextFrameId := v.nextFrameId + 1,
    animationFrameIdRef := some v.nextFrameId }

/-- The browser fires the pending frame request `id`: the request is consumed
and `animate` runs. A request that is not pending never fires. -/
def frameTick (id : Nat) (v : Viewer) : Viewer :=
  if id ∈ v.pendingFrames then
    animate { v with pendingFrames := v.pendingFrames.filter (fun j => j ≠ id) }
  else v

/-- `handleResize` (lines 143-153). -/
def handleResize (v : Viewer) : Viewer :=
  match v.containerAttached, v.cameraRef, v.rendererRef with
  | true, some camera, some renderer =>
    let width := v.container.clientWidth
    let height := v.container.clientHeight
    if width > 0 ∧ height > 0 then
      { v with
        cameraRef := some { camera with
          aspect := (width : ℚ) / (height : ℚ),
          projectionUpdates := camera.projectionUpdates + 1 },
        rendererRef := some { renderer with width := width, height := height } }
    else v
  | _, _, _ => v

/-- The first effect of `AvatarViewer` (lines 82-156) for `profile.height`:
the new viewer state and the cleanup function it returns, if any. -/
def sceneSetup (profileHeight : ℚ) (v : Viewer) : Viewer × Option Cleanup :=
  if ¬ v.containerAttached then (v, none)
  else if v.sceneRef.isSome then (v, none)
  else
    let initialWidth := if v.container.clientWidth = 0 then 400 else v.container.clientWidth
    let initialHeight := if v.container.clientHeight = 0 then 400 else v.container.clientHeight
    let targetY := profileHeight / 2
    let camera : Camera :=
      { fov := 75, aspect := (initialWidth : ℚ) / (initialHeight : ℚ), near := 0.1, far := 1000,
        position := ⟨0, targetY, profileHeight * 1.8⟩, projectionUpdates := 0 }
    let renderer : Renderer :=
      { domElement := v.nextElement, width := initialWidth, height := initialHeight }
    let scene : Scene :=
      { background := 0xf0f0f0,
        objects :=
          [ SceneObject.avatarGroup,
            SceneObject.ambientLight 0xffffff 0.6,
            SceneObject.directionalLight 0xffffff 1.0 ⟨2, 5, 3⟩,
            SceneObject.groundPlane 10 10 0xdddddd ] }
    let controls : OrbitControls :=
      { target := ⟨0, targetY, 0⟩, enableDamping := true, dampingFactor := 0.05,
        updateCalls := 0 }
    let built : Viewer :=
      { v with
        sceneRef := some scene,
        cameraRef := some camera,
        rendererRef := some renderer,
        controlsRef := some controls,
        container := { v.container with children := v.container.children ++ [renderer.domElement] },
        nextElement := v.nextElement + 1,
        constructions := v.constructions + 1 }
    let running := animate built
    ({ running with resizeListeners := running.resizeListeners ++ [renderer.domElement] },
      some { domElement := renderer.domElement, listener := renderer.domElement })

/-- The DOM call `container.removeChild(el)`, which throws when `el` is not a
child of the container. -/
def removeChild (c : Container) (el : Nat) : Except String Container :=
  if el ∈ c.children then
    Except.ok { c with children := c.children.filter (fun e => e ≠ el) }
  else Except.error "NotFoundError"

/-- The cleanup function returned by the setup (lines 158-172). -/
def sceneCleanup (c : Cleanup) (v : Viewer) : Except String Viewer := do
  let listeners := v.resizeListeners.filter (fun l => l ≠ c.listener)
  let pending :=
    match v.animationFrameIdRef with
    | some id => v.pendingFrames.filter (fun j => j ≠ id)
    | none => v.pendingFrames
  let container ←
    if c.domElement ∈ v.container.children then removeChild v.container c.domElement
    else pure v.container
  pure
    { v with
      resizeListeners := listeners,
      pendingFrames := pending,
      container := container,
      disposedRenderers := v.disposedRenderers ++ [c.domElement],
      sceneRef := none,
      cameraRef := none,
      rendererRef := none,
      controlsRef := none,
      avatarGroup := { v.avatarGroup with children := [] },
      cleanupRuns := v.cleanupRuns + 1 }

/-! ## Mesh update effect with the target adjustment (lines 176-265) -/

/-- What one call of `OrbitControls.update()` makes of the controls' target and
of the camera the controls drive, given the controls and the camera before
the call. The routine is three.js code: it recomputes the camera position
from the target and applies any pan or rotation still in flight. -/
abbrev OrbitUpdate := OrbitControls → Option Camera → Vector3 × Option Camera

/-- An `update()` with nothing in flight, in exact arithmetic: the target and
the camera stay where they are. -/
def restingUpdate : OrbitUpdate :=
  fun controls camera => (controls.target, camera)

/-- An `update()` with a pan still in flight: the target moves by the pan
offset, scaled by `dampingFactor` when damping is enabled, and the camera
moves with it. -/
def dampedPanUpdate (panOffset : Vector3) : OrbitUpdate :=
  fun controls camera =>
    let k : ℚ := if controls.enableDamping then controls.dampingFactor else 1
    (⟨controls.target.x + k * panOffset.x, controls.target.y + k * panOffset.y,
        controls.target.z + k * panOffset.z⟩,
      camera.map (fun cam =>
        { cam with position :=
            ⟨cam.position.x + k * panOffset.x, cam.position.y + k * panOffset.y,
              cam.position.z + k * panOffset.z⟩ }))

/-- Lines 254-262: when the target's y differs from `height / 2`, set the
target to `(0, height / 2, 0)` and call `controls.update()`; `update` says
what that call makes of the target and the camera. -/
def adjustTarget (update : OrbitUpdate) (height : ℚ) (v : Viewer) : Viewer :=
  match v.controlsRef with
  | none => v
  | some controls =>
    let targetY := height / 2
    if controls.target.y ≠ targetY then
      let aimed : OrbitControls := { controls with target := ⟨0, targetY, 0⟩ }
      let after := update aimed v.cameraRef
      { v with
        controlsRef := some { aimed with
          target := after.1,
          updateCalls := aimed.updateCalls + 1 },
        cameraRef := after.2 }
    else v

/-- The second effect of `AvatarViewer` on the viewer: the synthesis pass on
the avatar group, then the target adjustment. -/
def meshUpdateEffect (update : OrbitUpdate) (fuel : Nat) (profile : Profile)
    (selectedClothes : SelectedClothes) (v : Viewer) : Option Viewer :=
  (synthesisPass fuel profile selectedClothes v.avatarGroup).map
    (fun group => adjustTarget update profile.height { v with avatarGroup := group })

/-! ## Events of a mounted viewer -/

/-- What can happen to a viewer between a setup and its cleanup: the browser
fires a frame request, the container is laid out at a new size and the window
reports a resize, or the profile or selection changes and the mesh update
effect runs. -/
inductive ViewerEvent where
  | frame (id : Nat)
  | resize (width height : Nat)
  | meshUpdate (profile : Profile) (selectedClothes : SelectedClothes)
  deriving DecidableEq, Repr

/-- One event. A resize runs every registered `handleResize`; the mesh update
runs with a step budget above the number of children. -/
def viewerStep (update : OrbitUpdate) (e : ViewerEvent) (v : Viewer) : Option Viewer :=
  match e with
  | ViewerEvent.frame id => some (frameTick id v)
  | ViewerEvent.resize width height =>
    let laidOut : Viewer :=
      { v with container := { v.container with clientWidth := width, clientHeight := height } }
    some (laidOut.resizeListeners.foldl (fun acc _ => handleResize acc) laidOut)
  | ViewerEvent.meshUpdate profile selectedClothes =>
    meshUpdateEffect update (v.avatarGroup.children.length + 1) profile selectedClothes v

/-- A sequence of events, oldest first. -/
def runEvents (update : OrbitUpdate) : List ViewerEvent → Viewer → Option Viewer
  | [], v => some v
  | e :: rest, v => (viewerStep update e v).bind (runEvents update rest)

/-! ## Effect scheduling of the component (dependency lists of lines 173 and 265) -/

/-- A mounted `AvatarViewer`: its state, the props of the last render and the
cleanup function the last run of the first effect returned. -/
structure Mounted where
  viewer : Viewer
  profile : Profile
  cleanup : Option Cleanup
  deriving DecidableEq, Repr

/-- Run a stored cleanup function, if there is one. -/
def runCleanup (c : Option Cleanup) (v : Viewer) : Option Viewer :=
  match c with
  | none => some v
  | some c => (sceneCleanup c v).toOption

/-- Mount: both effects run once, in order. -/
def mountViewer (update : OrbitUpdate) (profile : Profile) (v : Viewer) : Option Mounted :=
  let setup := sceneSetup profile.height v
  (meshUpdateEffect update (setup.1.avatarGroup.children.length + 1) profile
      profile.selectedClothes setup.1).map
    (fun v2 => { viewer := v2, profile := profile, cleanup := setup.2 })

/-- Re-render with a new profile. The first effect depends on
`[profile.height]`: when the height differs from the last render its cleanup
runs and the effect runs again. The second effect depends on
`[profile.height, selectedClothes, getClothingItemColor]`: it runs when the
height differs or `selectedClothes` is a new object (`selectionIsNew`). -/
def updateViewer (update : OrbitUpdate) (profile : Profile) (selectionIsNew : Bool)
    (m : Mounted) : Option Mounted :=
  if profile.height ≠ m.profile.height then
    (runCleanup m.cleanup m.viewer).bind (fun v1 =>
      let setup := sceneSetup profile.height v1
      (meshUpdateEffect update (setup.1.avatarGroup.children.length + 1) profile
          profile.selectedClothes setup.1).map
        (fun v3 => { viewer := v3, profile := profile, cleanup := setup.2 }))
  else if selectionIsNew then
    (meshUpdateEffect update (m.viewer.avatarGroup.children.length + 1) profile
        profile.selectedClothes m.viewer).map
      (fun v1 => { m with viewer := v1, profile := profile })
  else some { m with profile := profile }

/-- Unmount: the container ref is detached and the stored cleanup runs. -/
def unmountViewer (m : Mounted) : Option Viewer :=
  runCleanup m.cleanup { m.viewer with containerAttached := false }

end AvatarPage

namespace ClothingList

/-! ## `src/components/ClothingList.jsx` -/

/-- An item of the clothing list: `{ id, name, type, color }`. -/
structure Item where
  id : String
  name : String
  type : String
  color : String
  deriving DecidableEq, Repr

/-- What one call of `toggleClothing` does: the list it passes to
`onToggleClothing` (`none` when it does not call it) and the message it
passes to `messageSetter`. -/
structure Outcome where
  toggled : Option (List Item)
  message : String
  deriving DecidableEq, Repr

/-- `toggleClothing(item)` (lines 5-22) for the current `selectedClothes`. -/
def toggleClothing (selectedClothes : List Item) (item : Item) : Outcome :=
  let isSelected := selectedClothes.any (fun c => decide (c.id = item.id))
  if isSelected then
    { toggled := some (selectedClothes.filter (fun c => decide (c.id ≠ item.id))),
      message := "" }
  else
    let hasConflict := selectedClothes.any (fun c => decide (c.type = item.type))
    if hasConflict ∧ item.type ≠ "Outerwear" ∧ item.type ≠ "Top" then
      { toggled := none,
        message := "Cannot wear two items of type: " ++ item.type
          ++ ". Remove the existing one first." }
    else
      { toggled := some (selectedClothes ++ [item]), message := "" }

/-- One item per type, except for `Outerwear` and `Top`: two entries at
different places of the list share a type only if it is one of those two. -/
def oneItemPerType (l : List Item) : Prop :=
  l.Pairwise (fun a b => a.type = b.type → a.type = "Outerwear" ∨ a.type = "Top")

end ClothingList

namespace AvatarPage

/-! ## Stacking arithmetic -/

/-- The head, body and neck fractions: the five stacked extents add up to the
height plus the neck spacer. -/
theorem extents_sum (h : ℚ) :
    shoeHeight h + bottomHeight h + topHeight h + neckHeight h + 2 * headRadius h
      = h + neckHeight h := by
  simp only [shoeHeight, bottomHeight, topHeight, neckHeight, remainingHeight, headRadius,
    headProportion]
  ring

/-- The neck spacer is a quarter of a percent of the height. -/
theorem neckHeight_eq (h : ℚ) : neckHeight h = h / 400 := by
  simp only [neckHeight, headRadius, headProportion]
  ring

/-- The meshes of a pass, with every centre written in closed form. -/
theorem avatarMeshes_eq (h : ℚ) (sel : SelectedClothes) :
    avatarMeshes h sel =
      [ mkMesh (Geometry.box (bodyWidth h * 0.6) (shoeHeight h) (bodyWidth h * 0.8))
          (Color.hex (getClothingItemColor (sel.lookup "shoes")))
          (-(bodyWidth h * 0.25)) (shoeHeight h / 2) 0,
        mkMesh (Geometry.box (bodyWidth h * 0.6) (shoeHeight h) (bodyWidth h * 0.8))
          (Color.hex (getClothingItemColor (sel.lookup "shoes")))
          (bodyWidth h * 0.25) (shoeHeight h / 2) 0,
        mkMesh (Geometry.box (bodyWidth h * 1.05) (bottomHeight h) (bodyWidth h * 0.45))
          (Color.hex (getClothingItemColor (sel.lookup "bottom")))
          0 (shoeHeight h + bottomHeight h / 2) 0,
        mkMesh (Geometry.box (bodyWidth h * 1.1) (topHeight h) (bodyWidth h * 0.45))
          (Color.hex (getClothingItemColor (sel.lookup "top")))
          0 (shoeHeight h + bottomHeight h + topHeight h / 2) 0,
        mkMesh (Geometry.box (bodyWidth h * 0.3) (neckHeight h) (bodyWidth h * 0.3))
          skinTone 0 (shoeHeight h + bottomHeight h + topHeight h + neckHeight h / 2) 0,
        mkMesh (Geometry.sphere (headRadius h) 32 16)
          skinTone 0
          (shoeHeight h + bottomHeight h + topHeight h + neckHeight h + headRadius h) 0 ] := by
  simp only [avatarMeshes, mkMesh, List.cons.injEq, Mesh.mk.injEq, Vector3.mk.injEq, and_true,
    true_and]
  refine ⟨⟨by ring, by ring⟩, by ring, by ring, by ring, by ring, by ring⟩

/-- Adding the six meshes appends them to the children already present and
leaves the disposal record alone. -/
theorem addAvatarMeshes_eq (h : ℚ) (sel : SelectedClothes) (st : AvatarState) :
    addAvatarMeshes h sel st =
      { st with children := st.children ++ avatarMeshes h sel } := by
  rw [addAvatarMeshes, avatarMeshes_eq]
  simp [addMesh]

/-- For a positive height every segment size is positive. -/
theorem sizes_pos {h : ℚ} (hpos : 0 < h) :
    0 < bodyWidth h ∧ 0 < headRadius h ∧ 0 < shoeHeight h ∧ 0 < bottomHeight h ∧
      0 < topHeight h ∧ 0 < neckHeight h := by
  simp only [bodyWidth, shoeHeight, bottomHeight, topHeight, neckHeight, remainingHeight,
    headRadius, headProportion]
  refine ⟨?_, ?_, ?_, ?_, ?_, ?_⟩ <;> norm_num <;> linarith

/-- A pass always builds six meshes. -/
theorem avatarMeshes_length (h : ℚ) (sel : SelectedClothes) :
    (avatarMeshes h sel).length = 6 := by
  rw [avatarMeshes_eq]; rfl

/-! ## The clearing loop -/

/-- With a budget above the number of children the loop ends on the empty
group, having recorded the geometry and the material of every child, in
order. -/
theorem clearPrevious_eq (fuel : Nat) (st : AvatarState) (hfuel : st.children.length < fuel) :
    clearPrevious fuel st =
      some { children := [],
             disposedGeometries := st.disposedGeometries ++ st.children.filterMap Mesh.geometry,
             disposedMaterials := st.disposedMaterials ++ st.children.filterMap Mesh.material } := by
  induction fuel generalizing st with
  | zero => omega
  | succ fuel ih =>
    obtain ⟨children, geos, mats⟩ := st
    cases children with
    | nil => simp [clearPrevious]
    | cons mesh rest =>
      have hlen : (clearStep ⟨mesh :: rest, geos, mats⟩ mesh).children.length < fuel := by
        simp only [clearStep, List.erase_cons_head]
        simp only [List.length_cons] at hfuel
        omega
      simp only [clearPrevious]
      rw [ih _ hlen]
      cases hg : mesh.geometry <;> cases hm : mesh.material <;>
        simp [clearStep, List.filterMap_cons, hg, hm]

/-- A pass with a sufficient budget: the children are exactly the six new
meshes and the old children's resources are on the disposal record. -/
theorem synthesisPass_eq (fuel : Nat) (p : Profile) (sel : SelectedClothes) (st : AvatarState)
    (hfuel : st.children.length < fuel) :
    synthesisPass fuel p sel st =
      some { children := avatarMeshes p.height sel,
             disposedGeometries := st.disposedGeometries ++ st.children.filterMap Mesh.geometry,
             disposedMaterials := st.disposedMaterials ++ st.children.filterMap Mesh.material } := by
  rw [synthesisPass, clearPrevious_eq fuel st hfuel]
  simp [addAvatarMeshes_eq]

/-- After a non-empty sequence of passes the children are the six meshes of
the last update. -/
theorem synthesisPasses_children (fuel : Nat) (h6 : 6 < fuel)
    (passes : List (Profile × SelectedClothes)) (hne : passes ≠ []) (st : AvatarState)
    (hfuel : st.children.length < fuel) :
    ∃ st', synthesisPasses fuel passes st = some st' ∧
      ∀ last ∈ passes.getLast?, st'.children = avatarMeshes last.1.height last.2 := by
  induction passes generalizing st with
  | nil => exact absurd rfl hne
  | cons hd tl ih =>
    obtain ⟨p, sel⟩ := hd
    simp only [synthesisPasses, synthesisPass_eq fuel p sel st hfuel, Option.some_bind]
    cases tl with
    | nil => simp [synthesisPasses]
    | cons hd2 tl2 =>
      have hlen : (⟨avatarMeshes p.height sel,
          st.disposedGeometries ++ st.children.filterMap Mesh.geometry,
          st.disposedMaterials ++ st.children.filterMap Mesh.material⟩ : AvatarState).children.length
            < fuel := by
        simp only [avatarMeshes_length]; exact h6
      obtain ⟨st', hst', hlast⟩ := ih (by simp) _ hlen
      exact ⟨st', hst', by simpa [List.getLast?_cons_cons] using hlast⟩

/-! ## The claims on the stacking -/

/-- C1 (defect in the code): at the mock profile's height 1.71 the stacked extents
shoeHeight + bottomHeight + topHeight + neckHeight + 2*headRadius add up to
1.714275, and the top of the head sphere built by the pass is at y = 1.714275:
the neck spacer is stacked on top of segments that already fill the height,
so the avatar is taller than `height` by `neckHeight`. -/
theorem stack_overshoots_height_at_mock :
    shoeHeight 1.71 + bottomHeight 1.71 + topHeight 1.71 + neckHeight 1.71
        + 2 * headRadius 1.71 = 1.714275 ∧
      (avatarMeshes 1.71 MOCK_PROFILE.selectedClothes).getLast?.map Mesh.topY
        = some 1.714275 ∧
      (1.714275 : ℚ) ≠ 1.71 := by
  refine ⟨?_, ?_, by norm_num⟩
  · rw [extents_sum, neckHeight_eq]; norm_num
  · rw [avatarMeshes_eq]
    simp only [List.getLast?, List.getLast, mkMesh, Option.map_some', Mesh.topY,
      Geometry.extentY, Option.some.injEq]
    simp only [shoeHeight, bottomHeight, topHeight, neckHeight, remainingHeight, headRadius,
      headProportion]
    norm_num

/-- C2: for every height the pass computes bodyWidth = 0.2h, headRadius = 0.05h,
remainingHeight = h - 2*headRadius, shoe/top/bottom heights of 5%/40%/55% of
remainingHeight (summing to it), neckHeight = 0.05*headRadius, and the six
meshes have the closed-form centres, lateral offsets and box sizes of the
stacking rule; at h = 1.71 the values are 0.0855, 1.539, 0.07695, 0.84645
and 0.6156. -/
theorem synthesis_closed_form (h : ℚ) (sel : SelectedClothes) :
    bodyWidth h = 0.2 * h ∧ headRadius h = 0.05 * h ∧
    remainingHeight h = h - 2 * headRadius h ∧
    shoeHeight h = 0.05 * remainingHeight h ∧
    topHeight h = 0.40 * remainingHeight h ∧
    bottomHeight h = 0.55 * remainingHeight h ∧
    shoeHeight h + topHeight h + bottomHeight h = remainingHeight h ∧
    neckHeight h = 0.05 * headRadius h ∧
    avatarMeshes h sel =
      [ mkMesh (Geometry.box (bodyWidth h * 0.6) (shoeHeight h) (bodyWidth h * 0.8))
          (Color.hex (getClothingItemColor (sel.lookup "shoes")))
          (-(bodyWidth h * 0.25)) (shoeHeight h / 2) 0,
        mkMesh (Geometry.box (bodyWidth h * 0.6) (shoeHeight h) (bodyWidth h * 0.8))
          (Color.hex (getClothingItemColor (sel.lookup "shoes")))
          (bodyWidth h * 0.25) (shoeHeight h / 2) 0,
        mkMesh (Geometry.box (bodyWidth h * 1.05) (bottomHeight h) (bodyWidth h * 0.45))
          (Color.hex (getClothingItemColor (sel.lookup "bottom")))
          0 (shoeHeight h + bottomHeight h / 2) 0,
        mkMesh (Geometry.box (bodyWidth h * 1.1) (topHeight h) (bodyWidth h * 0.45))
          (Color.hex (getClothingItemColor (sel.lookup "top")))
          0 (shoeHeight h + bottomHeight h + topHeight h / 2) 0,
        mkMesh (Geometry.box (bodyWidth h * 0.3) (neckHeight h) (bodyWidth h * 0.3))
          skinTone 0 (shoeHeight h + bottomHeight h + topHeight h + neckHeight h / 2) 0,
        mkMesh (Geometry.sphere (headRadius h) 32 16)
          skinTone 0
          (shoeHeight h + bottomHeight h + topHeight h + neckHeight h + headRadius h) 0 ] ∧
    headRadius 1.71 = 0.0855 ∧ remainingHeight 1.71 = 1.539 ∧ shoeHeight 1.71 = 0.07695 ∧
    bottomHeight 1.71 = 0.84645 ∧ topHeight 1.71 = 0.6156 := by
  refine ⟨?_, ?_, ?_, ?_, ?_, ?_, ?_, ?_, avatarMeshes_eq h sel, ?_, ?_, ?_, ?_, ?_⟩ <;>
    simp only [bodyWidth, shoeHeight, bottomHeight, topHeight, neckHeight, remainingHeight,
      headRadius, headProportion] <;> ring_nf

/-- C3: for every height in [1.0, 2.5] and every selection, the pass appends
exactly six meshes to the group, in the order left shoe (negative x), right
shoe (positive x), bottom, top, neck, head (the sphere), and every dimension
of each of them is strictly positive. -/
theorem pass_adds_six_positive (h : ℚ) (sel : SelectedClothes) (st : AvatarState)
    (hlo : 1.0 ≤ h) (_hhi : h ≤ 2.5) :
    ∃ leftShoe rightShoe bottom top neck head : Mesh,
      (addAvatarMeshes h sel st).children
        = st.children ++ [leftShoe, rightShoe, bottom, top, neck, head] ∧
      leftShoe.geometry
        = some (Geometry.box (bodyWidth h * 0.6) (shoeHeight h) (bodyWidth h * 0.8)) ∧
      leftShoe.position.x < 0 ∧
      rightShoe.geometry = leftShoe.geometry ∧ 0 < rightShoe.position.x ∧
      bottom.geometry
        = some (Geometry.box (bodyWidth h * 1.05) (bottomHeight h) (bodyWidth h * 0.45)) ∧
      top.geometry
        = some (Geometry.box (bodyWidth h * 1.1) (topHeight h) (bodyWidth h * 0.45)) ∧
      neck.geometry
        = some (Geometry.box (bodyWidth h * 0.3) (neckHeight h) (bodyWidth h * 0.3)) ∧
      head.geometry = some (Geometry.sphere (headRadius h) 32 16) ∧
      ∀ m ∈ [leftShoe, rightShoe, bottom, top, neck, head], m.positiveDimensions := by
  have hpos : 0 < h := by norm_num at hlo; linarith
  obtain ⟨hbw, hhr, hsh, hbh, hth, hnh⟩ := sizes_pos hpos
  rw [addAvatarMeshes_eq, avatarMeshes_eq]
  refine ⟨_, _, _, _, _, _, rfl, rfl, ?_, rfl, ?_, rfl, rfl, rfl, rfl, ?_⟩
  · simp only [mkMesh]; nlinarith
  · simp only [mkMesh]; nlinarith
  · intro m hm
    simp only [List.mem_cons, List.mem_singleton, List.not_mem_nil, or_false] at hm
    rcases hm with rfl | rfl | rfl | rfl | rfl | rfl <;>
      simp only [Mesh.positiveDimensions, mkMesh, Geometry.dimensions, List.mem_cons,
        List.mem_singleton, List.not_mem_nil, or_false, forall_eq_or_imp, forall_eq] <;>
      (try refine ⟨?_, ?_, ?_⟩) <;> first | assumption | nlinarith

/-- Witness for C3 at the mock profile: height 1.71, empty group. -/
theorem pass_adds_six_positive_witness :
    (1.0 : ℚ) ≤ 1.71 ∧ (1.71 : ℚ) ≤ 2.5 ∧
    ∃ leftShoe rightShoe bottom top neck head : Mesh,
      (addAvatarMeshes 1.71 MOCK_PROFILE.selectedClothes ⟨[], [], []⟩).children
        = [] ++ [leftShoe, rightShoe, bottom, top, neck, head] ∧
      leftShoe.geometry
        = some (Geometry.box (bodyWidth 1.71 * 0.6) (shoeHeight 1.71) (bodyWidth 1.71 * 0.8)) ∧
      leftShoe.position.x < 0 ∧
      rightShoe.geometry = leftShoe.geometry ∧ 0 < rightShoe.position.x ∧
      bottom.geometry
        = some (Geometry.box (bodyWidth 1.71 * 1.05) (bottomHeight 1.71)
            (bodyWidth 1.71 * 0.45)) ∧
      top.geometry
        = some (Geometry.box (bodyWidth 1.71 * 1.1) (topHeight 1.71) (bodyWidth 1.71 * 0.45)) ∧
      neck.geometry
        = some (Geometry.box (bodyWidth 1.71 * 0.3) (neckHeight 1.71) (bodyWidth 1.71 * 0.3)) ∧
      head.geometry = some (Geometry.sphere (headRadius 1.71) 32 16) ∧
      ∀ m ∈ [leftShoe, rightShoe, bottom, top, neck, head], m.positiveDimensions :=
  ⟨by norm_num, by norm_num,
    pass_adds_six_positive 1.71 MOCK_PROFILE.selectedClothes ⟨[], [], []⟩
      (by norm_num) (by norm_num)⟩

/-! ## The claims on replacement -/

/-- C4: from a group with any finite number of children, the clearing loop
ends (given a step budget above the number of children) on the empty group
with every old child's geometry and material disposed; the pass then leaves
exactly the six meshes of the current (height, selection); after any
non-empty sequence of passes the group holds six meshes; and two passes with
the same height and selection give the same meshes whatever the group held
before. -/
theorem pass_clears_then_rebuilds (st : AvatarState) (fuel : Nat)
    (hfuel : st.children.length < fuel) (h6 : 6 < fuel) (p : Profile) (sel : SelectedClothes) :
    (∃ cleared, clearPrevious fuel st = some cleared ∧ cleared.children = [] ∧
      (∀ m ∈ st.children, ∀ g, m.geometry = some g → g ∈ cleared.disposedGeometries) ∧
      (∀ m ∈ st.children, ∀ mat, m.material = some mat → mat ∈ cleared.disposedMaterials)) ∧
    (∃ st', synthesisPass fuel p sel st = some st' ∧
      st'.children = avatarMeshes p.height sel ∧ st'.children.length = 6) ∧
    (∀ passes : List (Profile × SelectedClothes), passes ≠ [] →
      ∃ st', synthesisPasses fuel passes st = some st' ∧ st'.children.length = 6) ∧
    (∀ (p2 : Profile) (st2 : AvatarState), p2.height = p.height → st2.children.length < fuel →
      (synthesisPass fuel p2 sel st2).map AvatarState.children
        = (synthesisPass fuel p sel st).map AvatarState.children) := by
  refine ⟨⟨_, clearPrevious_eq fuel st hfuel, rfl, ?_, ?_⟩,
    ⟨_, synthesisPass_eq fuel p sel st hfuel, rfl, avatarMeshes_length _ _⟩, ?_, ?_⟩
  · intro m hm g hg
    exact List.mem_append_right _ (List.mem_filterMap.mpr ⟨m, hm, hg⟩)
  · intro m hm mat hmat
    exact List.mem_append_right _ (List.mem_filterMap.mpr ⟨m, hm, hmat⟩)
  · intro passes hne
    obtain ⟨st', hst', hlast⟩ := synthesisPasses_children fuel h6 passes hne st hfuel
    refine ⟨st', hst', ?_⟩
    cases hl : passes.getLast? with
    | none => exact absurd (List.getLast?_eq_none_iff.mp hl) hne
    | some last => rw [hlast last (by simp [hl]), avatarMeshes_length]
  · intro p2 st2 hh hfuel2
    rw [synthesisPass_eq fuel p2 sel st2 hfuel2, synthesisPass_eq fuel p sel st hfuel, hh]
    rfl

/-- Witness for C4: the stale two-child group, budget 7, the mock profile. -/
theorem pass_clears_then_rebuilds_witness :
    staleGroup.children.length < 7 ∧ 6 < 7 ∧
    (∃ cleared, clearPrevious 7 staleGroup = some cleared ∧ cleared.children = [] ∧
      (∀ m ∈ staleGroup.children, ∀ g, m.geometry = some g → g ∈ cleared.disposedGeometries) ∧
      (∀ m ∈ staleGroup.children, ∀ mat,
        m.material = some mat → mat ∈ cleared.disposedMaterials)) ∧
    (∃ st', synthesisPass 7 MOCK_PROFILE MOCK_PROFILE.selectedClothes staleGroup = some st' ∧
      st'.children = avatarMeshes MOCK_PROFILE.height MOCK_PROFILE.selectedClothes ∧
      st'.children.length = 6) ∧
    (∀ passes : List (Profile × SelectedClothes), passes ≠ [] →
      ∃ st', synthesisPasses 7 passes staleGroup = some st' ∧ st'.children.length = 6) ∧
    (∀ (p2 : Profile) (st2 : AvatarState), p2.height = MOCK_PROFILE.height →
      st2.children.length < 7 →
      (synthesisPass 7 p2 MOCK_PROFILE.selectedClothes st2).map AvatarState.children
        = (synthesisPass 7 MOCK_PROFILE MOCK_PROFILE.selectedClothes staleGroup).map
            AvatarState.children) :=
  ⟨by decide, by decide,
    pass_clears_then_rebuilds staleGroup 7 (by decide) (by decide) MOCK_PROFILE
      MOCK_PROFILE.selectedClothes⟩

/-! ## The claims on colours -/

/-- The colours of the six meshes, in order. -/
theorem avatarMeshes_colors (h : ℚ) (sel : SelectedClothes) :
    (avatarMeshes h sel).map Mesh.color =
      [ some (Color.hex (getClothingItemColor (sel.lookup "shoes"))),
        some (Color.hex (getClothingItemColor (sel.lookup "shoes"))),
        some (Color.hex (getClothingItemColor (sel.lookup "bottom"))),
        some (Color.hex (getClothingItemColor (sel.lookup "top"))),
        some skinTone, some skinTone ] := by
  rw [avatarMeshes_eq]; rfl

/-- C5: an id that matches no catalog entry (an undefined slot included)
resolves to the fallback colour `#9ca3af`; the shoe, bottom or top mesh built
from such a slot carries that colour, and the pass still builds six meshes. -/
theorem unknown_id_falls_back (id : Option String)
    (hid : ∀ c ∈ CLOTHING_CATALOG, some c.id ≠ id) (h : ℚ) (sel : SelectedClothes) :
    getClothingItemColor id = "#9ca3af" ∧
    (avatarMeshes h sel).length = 6 ∧
    (sel.lookup "shoes" = id →
      (avatarMeshes h sel)[0]?.bind Mesh.color = some (Color.hex "#9ca3af") ∧
      (avatarMeshes h sel)[1]?.bind Mesh.color = some (Color.hex "#9ca3af")) ∧
    (sel.lookup "bottom" = id →
      (avatarMeshes h sel)[2]?.bind Mesh.color = some (Color.hex "#9ca3af")) ∧
    (sel.lookup "top" = id →
      (avatarMeshes h sel)[3]?.bind Mesh.color = some (Color.hex "#9ca3af")) := by
  have hcol : getClothingItemColor id = "#9ca3af" := by
    have hfind : CLOTHING_CATALOG.find? (fun c => decide (some c.id = id)) = none := by
      rw [List.find?_eq_none]
      intro c hc
      simpa using hid c hc
    simp only [getClothingItemColor, hfind]
    decide
  refine ⟨hcol, avatarMeshes_length h sel, ?_, ?_, ?_⟩ <;> intro hsel <;>
    rw [avatarMeshes_eq] <;> simp [mkMesh, Mesh.color, hsel, hcol]

/-- Witness for C5: the id `cape-green` is not in the catalog. -/
theorem unknown_id_falls_back_witness :
    (∀ c ∈ CLOTHING_CATALOG, some c.id ≠ some "cape-green") ∧
    getClothingItemColor (some "cape-green") = "#9ca3af" ∧
    (avatarMeshes 1.71 [("top", "cape-green")]).length = 6 ∧
    (avatarMeshes 1.71 [("top", "cape-green")])[3]?.bind Mesh.color
      = some (Color.hex "#9ca3af") :=
  have hid : ∀ c ∈ CLOTHING_CATALOG, some c.id ≠ some "cape-green" := by decide
  have key := unknown_id_falls_back (some "cape-green") hid 1.71 [("top", "cape-green")]
  ⟨hid, key.1, key.2.1, key.2.2.2.2 (by decide)⟩

/-- C6: every id of the catalog resolves to the `TAILWIND_TO_HEX` value of its
entry's colour class, which is always present and non-empty (the fallback
branch is not taken); `t-shirt-red`, `shorts-khaki` and `boots-brown` resolve
to `#dc2626`, `#b45309` and `#9a3412`; and the shoe, bottom and top meshes
carry the colours of the `shoes`, `bottom` and `top` slots. -/
theorem catalog_id_resolves (c : ClothingItem) (hc : c ∈ CLOTHING_CATALOG)
    (h : ℚ) (sel : SelectedClothes) :
    (∃ hex, TAILWIND_TO_HEX.lookup c.color = some hex ∧ hex ≠ "" ∧
      getClothingItemColor (some c.id) = hex) ∧
    getClothingItemColor (some "t-shirt-red") = "#dc2626" ∧
    getClothingItemColor (some "shorts-khaki") = "#b45309" ∧
    getClothingItemColor (some "boots-brown") = "#9a3412" ∧
    (avatarMeshes h sel).map Mesh.color =
      [ some (Color.hex (getClothingItemColor (sel.lookup "shoes"))),
        some (Color.hex (getClothingItemColor (sel.lookup "shoes"))),
        some (Color.hex (getClothingItemColor (sel.lookup "bottom"))),
        some (Color.hex (getClothingItemColor (sel.lookup "top"))),
        some skinTone, some skinTone ] := by
  refine ⟨?_, by decide, by decide, by decide, avatarMeshes_colors h sel⟩
  simp only [CLOTHING_CATALOG, List.mem_cons, List.mem_singleton, List.not_mem_nil,
    or_false] at hc
  rcases hc with rfl | rfl | rfl | rfl | rfl | rfl | rfl | rfl | rfl
  · exact ⟨"#ffffff", by decide, by decide, by decide⟩
  · exact ⟨"#111827", by decide, by decide, by decide⟩
  · exact ⟨"#dc2626", by decide, by decide, by decide⟩
  · exact ⟨"#2563eb", by decide, by decide, by decide⟩
  · exact ⟨"#1f2937", by decide, by decide, by decide⟩
  · exact ⟨"#b45309", by decide, by decide, by decide⟩
  · exact ⟨"#111827", by decide, by decide, by decide⟩
  · exact ⟨"#ffffff", by decide, by decide, by decide⟩
  · exact ⟨"#9a3412", by decide, by decide, by decide⟩

/-- Witness for C6: the catalog entry of the blue jeans, worn by the mock
profile in place of the shorts. -/
theorem catalog_id_resolves_witness :
    (⟨"jeans-blue", "bottom", "bg-blue-600", "Blue Jeans"⟩ : ClothingItem) ∈ CLOTHING_CATALOG ∧
    getClothingItemColor (some "jeans-blue") = "#2563eb" ∧
    (avatarMeshes 1.71 [("top", "t-shirt-red"), ("bottom", "jeans-blue"),
        ("shoes", "boots-brown")]).map Mesh.color =
      [ some (Color.hex "#9a3412"), some (Color.hex "#9a3412"), some (Color.hex "#2563eb"),
        some (Color.hex "#dc2626"), some skinTone, some skinTone ] := by
  have hmem : (⟨"jeans-blue", "bottom", "bg-blue-600", "Blue Jeans"⟩ : ClothingItem)
      ∈ CLOTHING_CATALOG := by decide
  have key := catalog_id_resolves _ hmem 1.71
    [("top", "t-shirt-red"), ("bottom", "jeans-blue"), ("shoes", "boots-brown")]
  refine ⟨hmem, by decide, ?_⟩
  rw [key.2.2.2.2]
  decide

/-- C7: the pass does not read `bodyType`. Two profiles with the same height
and the same selected clothes give the same result of a pass from any group,
and so does the profile returned by `handleBodyTypeChange`. -/
theorem pass_ignores_bodyType (p1 p2 : Profile) (st : AvatarState) (fuel : Nat)
    (hheight : p1.height = p2.height) (hclothes : p1.selectedClothes = p2.selectedClothes)
    (hfuel : st.children.length < fuel) :
    (∃ st', synthesisPass fuel p1 p1.selectedClothes st = some st' ∧
      synthesisPass fuel p2 p2.selectedClothes st = some st') ∧
    (∀ newType : String, ∃ p' st',
      handleBodyTypeChange newType (some p1) = some p' ∧ p'.bodyType = newType ∧
      synthesisPass fuel p' p'.selectedClothes st = some st' ∧
      synthesisPass fuel p1 p1.selectedClothes st = some st') := by
  refine ⟨⟨_, synthesisPass_eq fuel p1 _ st hfuel, ?_⟩, ?_⟩
  · rw [synthesisPass_eq fuel p2 _ st hfuel, hheight, hclothes]
  · intro newType
    exact ⟨{ p1 with bodyType := newType }, _, rfl, rfl,
      synthesisPass_eq fuel _ _ st hfuel, synthesisPass_eq fuel p1 _ st hfuel⟩

/-- Witness for C7: the mock profile as `Average` and as `Endomorph`. -/
theorem pass_ignores_bodyType_witness :
    MOCK_PROFILE.height = ({ MOCK_PROFILE with bodyType := "Endomorph" } : Profile).height ∧
    MOCK_PROFILE.bodyType ≠ ({ MOCK_PROFILE with bodyType := "Endomorph" } : Profile).bodyType ∧
    ∃ st', synthesisPass 3 MOCK_PROFILE MOCK_PROFILE.selectedClothes staleGroup = some st' ∧
      synthesisPass 3 { MOCK_PROFILE with bodyType := "Endomorph" }
        MOCK_PROFILE.selectedClothes staleGroup = some st' :=
  ⟨rfl, by decide,
    (pass_ignores_bodyType MOCK_PROFILE { MOCK_PROFILE with bodyType := "Endomorph" }
      staleGroup 3 rfl rfl (by decide)).1⟩

/-! ## The height handler -/

/-- Below `10^21` the handler's conversion is rounding to two decimals. -/
theorem parseFloatToFixed2_eq_round {x : ℚ} (hx : |x| < (10 : ℚ) ^ 21) :
    parseFloatToFixed2 x = roundTwoDecimals x := by
  simp only [parseFloatToFixed2, roundTwoDecimals, not_le.mpr hx, if_false]

/-- From `10^21` on, neither the converted value nor the rounded value lies in
the accepted range. -/
theorem huge_out_of_range {x : ℚ} (hx : (10 : ℚ) ^ 21 ≤ |x|) :
    ¬ (parseFloatToFixed2 x ≥ 1.0 ∧ parseFloatToFixed2 x ≤ 2.5) ∧
    ¬ (roundTwoDecimals x ≥ 1.0 ∧ roundTwoDecimals x ≤ 2.5) := by
  simp only [parseFloatToFixed2, roundTwoDecimals, hx, if_true]
  by_cases hneg : x < 0
  · have hfloor : (0 : ℚ) ≤ (⌊(-x) * 100 + 1 / 2⌋ : ℚ) := by
      have : (0 : ℤ) ≤ ⌊(-x) * 100 + 1 / 2⌋ := Int.floor_nonneg.mpr (by linarith)
      exact_mod_cast this
    simp only [hneg, if_true]
    generalize ((⌊(-x) * 100 + 1 / 2⌋ : ℤ) : ℚ) = f at hfloor ⊢
    constructor
    · rintro ⟨h1, _⟩; norm_num at h1; linarith
    · rintro ⟨h1, _⟩; norm_num at h1; linarith
  · have hx0 : 0 ≤ x := not_lt.mp hneg
    rw [abs_of_nonneg hx0] at hx
    have hfloor : x * 100 + 1 / 2 - 1 < (⌊x * 100 + 1 / 2⌋ : ℚ) := Int.sub_one_lt_floor _
    simp only [hneg, if_false]
    generalize ((⌊x * 100 + 1 / 2⌋ : ℤ) : ℚ) = f at hfloor ⊢
    constructor
    · rintro ⟨_, h2⟩; norm_num at h2 hx; linarith
    · rintro ⟨_, h2⟩; norm_num at h2 hx; linarith

/-- The range test of the handler, read on the rounded value. -/
theorem range_test_iff (x : ℚ) :
    (parseFloatToFixed2 x ≥ 1.0 ∧ parseFloatToFixed2 x ≤ 2.5) ↔
      (roundTwoDecimals x ≥ 1.0 ∧ roundTwoDecimals x ≤ 2.5) := by
  by_cases hx : (10 : ℚ) ^ 21 ≤ |x|
  · exact iff_of_false (huge_out_of_range hx).1 (huge_out_of_range hx).2
  · rw [parseFloatToFixed2_eq_round (not_le.mp hx)]

/-- What the handler returns on a loaded profile. -/
theorem handleHeightChange_some (fadd : ℚ → ℚ → ℚ) (delta : ℚ) (p : Profile) :
    handleHeightChange fadd delta (some p) =
      if roundTwoDecimals (fadd p.height delta) ≥ 1.0 ∧
          roundTwoDecimals (fadd p.height delta) ≤ 2.5
      then some { p with height := roundTwoDecimals (fadd p.height delta) }
      else some p := by
  by_cases hr : roundTwoDecimals (fadd p.height delta) ≥ 1.0 ∧
      roundTwoDecimals (fadd p.height delta) ≤ 2.5
  · have hp := (range_test_iff _).mpr hr
    have hx : |fadd p.height delta| < (10 : ℚ) ^ 21 := by
      by_contra hbig
      exact (huge_out_of_range (not_lt.mp hbig)).1 hp
    simp only [handleHeightChange, hp, hr, and_self, if_true,
      parseFloatToFixed2_eq_round hx]
  · have hp := (not_congr (range_test_iff _)).mpr hr
    simp only [handleHeightChange, hp, hr, if_false]

/-- One height change keeps a height that is in range in range. -/
theorem handleHeightChange_range (fadd : ℚ → ℚ → ℚ) (delta : ℚ) (p : Profile)
    (hp : 1.0 ≤ p.height ∧ p.height ≤ 2.5) :
    ∃ p', handleHeightChange fadd delta (some p) = some p' ∧
      1.0 ≤ p'.height ∧ p'.height ≤ 2.5 := by
  rw [handleHeightChange_some]
  split
  · next hr => exact ⟨_, rfl, hr.1, hr.2⟩
  · exact ⟨p, rfl, hp.1, hp.2⟩

/-- Any sequence of height changes keeps a height that is in range in range. -/
theorem heightChanges_range (fadd : ℚ → ℚ → ℚ) (deltas : List ℚ) (p : Profile)
    (hp : 1.0 ≤ p.height ∧ p.height ≤ 2.5) :
    ∃ q, deltas.foldl (fun st d => handleHeightChange fadd d st) (some p) = some q ∧
      1.0 ≤ q.height ∧ q.height ≤ 2.5 := by
  induction deltas generalizing p with
  | nil => exact ⟨p, rfl, hp.1, hp.2⟩
  | cons d rest ih =>
    obtain ⟨p', hp', hrange⟩ := handleHeightChange_range fadd d p hp
    simp only [List.foldl_cons, hp']
    exact ih p' hrange

/-- C8: whatever double the addition `prev.height + delta` produces,
`handleHeightChange` returns null on a null profile; on a profile it returns
the profile with the height replaced by that sum rounded to two decimals when
the rounded value lies in [1.0, 2.5] (other fields unchanged) and the
previous profile otherwise; a height in [1.0, 2.5] therefore stays in
[1.0, 2.5]; and from `MOCK_PROFILE` every sequence of height changes ends on
a profile whose height is in [1.0, 2.5]. -/
theorem handleHeightChange_keeps_range (fadd : ℚ → ℚ → ℚ) (delta : ℚ) (p : Profile) :
    handleHeightChange fadd delta none = none ∧
    (roundTwoDecimals (fadd p.height delta) ≥ 1.0 ∧
        roundTwoDecimals (fadd p.height delta) ≤ 2.5 →
      handleHeightChange fadd delta (some p)
        = some { id := p.id, name := p.name, height := roundTwoDecimals (fadd p.height delta),
                 bodyType := p.bodyType, selectedClothes := p.selectedClothes }) ∧
    (¬ (roundTwoDecimals (fadd p.height delta) ≥ 1.0 ∧
        roundTwoDecimals (fadd p.height delta) ≤ 2.5) →
      handleHeightChange fadd delta (some p) = some p) ∧
    (1.0 ≤ p.height ∧ p.height ≤ 2.5 →
      ∃ p', handleHeightChange fadd delta (some p) = some p' ∧
        1.0 ≤ p'.height ∧ p'.height ≤ 2.5) ∧
    (∀ deltas : List ℚ,
      ∃ q, deltas.foldl (fun st d => handleHeightChange fadd d st) (some MOCK_PROFILE)
          = some q ∧
        1.0 ≤ q.height ∧ q.height ≤ 2.5) := by
  refine ⟨rfl, ?_, ?_, handleHeightChange_range fadd delta p, ?_⟩
  · intro hr; rw [handleHeightChange_some, if_pos hr]
  · intro hr; rw [handleHeightChange_some, if_neg hr]
  · intro deltas
    exact heightChanges_range fadd deltas MOCK_PROFILE (by norm_num [MOCK_PROFILE])

/-- The sum 1.5 + 0.25 is exact in double precision and rounds to 1.75. -/
theorem round_exact_sum : roundTwoDecimals ((1.5 : ℚ) + 0.25) = 1.75 := by
  have hfl : ⌊((1.5 : ℚ) + 0.25) * 100 + 1 / 2⌋ = 175 := by
    rw [Int.floor_eq_iff]; constructor <;> norm_num
  have hnn : ¬ ((1.5 : ℚ) + 0.25 < 0) := by norm_num
  simp only [roundTwoDecimals, hnn, if_false, hfl]
  norm_num

/-- Witness for C8: a profile of height 1.5 raised by 0.25. Both numbers and
their sum 1.75 are doubles, so the double addition is the exact one here;
the new height is 1.75, every other field as before. -/
theorem handleHeightChange_keeps_range_witness :
    (roundTwoDecimals ((1.5 : ℚ) + 0.25) ≥ 1.0 ∧ roundTwoDecimals ((1.5 : ℚ) + 0.25) ≤ 2.5) ∧
    handleHeightChange (fun a b => a + b) 0.25 (some { MOCK_PROFILE with height := 1.5 })
      = some { id := "u4321", name := "User Avatar", height := 1.75, bodyType := "Average",
               selectedClothes :=
                 [ ("top", "t-shirt-red"), ("bottom", "shorts-khaki"),
                   ("shoes", "boots-brown") ] } := by
  have hr : roundTwoDecimals ((1.5 : ℚ) + 0.25) ≥ 1.0 ∧
      roundTwoDecimals ((1.5 : ℚ) + 0.25) ≤ 2.5 := by
    rw [round_exact_sum]; norm_num
  refine ⟨hr, ?_⟩
  rw [(handleHeightChange_keeps_range (fun a b => a + b) 0.25
    { MOCK_PROFILE with height := 1.5 }).2.1 hr, round_exact_sum]
  rfl

/-- The double-precision sum of 1.71 and 0.005 is 482729585058775 / 2^48, just
below 1.715. Rounded to two decimals it is 1.71, so with that sum the handler
leaves the mock profile at 1.71, where the exact sum 1.715 would round to
1.72. -/
theorem double_sum_below_tie :
    handleHeightChange (fun _ _ => 482729585058775 / 281474976710656) 0.005
      (some MOCK_PROFILE) = some MOCK_PROFILE := by
  have hfl : ⌊((482729585058775 : ℚ) / 281474976710656) * 100 + 1 / 2⌋ = 171 := by
    rw [Int.floor_eq_iff]; constructor <;> norm_num
  have hnn : ¬ ((482729585058775 : ℚ) / 281474976710656 < 0) := by norm_num
  have hround : roundTwoDecimals ((482729585058775 : ℚ) / 281474976710656) = 1.71 := by
    simp only [roundTwoDecimals, hnn, if_false, hfl]
    norm_num
  rw [handleHeightChange_some]
  simp only [hround]
  rw [if_pos (by norm_num)]
  rfl

/-! ## Out-of-range heights and the head -/

/-- C9, refuted as stated: handed the height 0, the pass still builds its six
meshes, and not all of their dimensions are strictly positive; the height is
neither clamped nor skipped. -/
theorem zero_height_degenerate :
    ∃ st', synthesisPass 1 { MOCK_PROFILE with height := 0 } MOCK_PROFILE.selectedClothes
        ⟨[], [], []⟩ = some st' ∧
      st'.children.length = 6 ∧ ¬ ∀ m ∈ st'.children, m.positiveDimensions := by
  refine ⟨_, synthesisPass_eq 1 _ _ ⟨[], [], []⟩ (by decide), avatarMeshes_length _ _, ?_⟩
  intro hall
  have hmem : mkMesh (Geometry.sphere (headRadius 0) 32 16) skinTone 0
      (shoeHeight 0 + bottomHeight 0 + topHeight 0 + neckHeight 0 + headRadius 0) 0
      ∈ avatarMeshes 0 MOCK_PROFILE.selectedClothes := by
    rw [avatarMeshes_eq]; simp
  have hpos := hall _ hmem
  simp [Mesh.positiveDimensions, mkMesh, Geometry.dimensions, headRadius] at hpos

/-- C9, amended: the pass builds its meshes for whatever height it is given,
and every dimension of every mesh is strictly positive exactly when the
height is strictly positive. -/
theorem dimensions_positive_iff (h : ℚ) (sel : SelectedClothes) :
    (∀ m ∈ avatarMeshes h sel, m.positiveDimensions) ↔ 0 < h := by
  constructor
  · intro hall
    have hmem : mkMesh (Geometry.sphere (headRadius h) 32 16) skinTone 0
        (shoeHeight h + bottomHeight h + topHeight h + neckHeight h + headRadius h) 0
        ∈ avatarMeshes h sel := by
      rw [avatarMeshes_eq]; simp
    have hpos := hall _ hmem
    simp only [Mesh.positiveDimensions, mkMesh, Geometry.dimensions, List.mem_singleton,
      forall_eq, headRadius, headProportion] at hpos
    norm_num at hpos
    linarith
  · intro hpos m hm
    obtain ⟨hbw, hhr, hsh, hbh, hth, hnh⟩ := sizes_pos hpos
    rw [avatarMeshes_eq] at hm
    simp only [List.mem_cons, List.mem_singleton, List.not_mem_nil, or_false] at hm
    rcases hm with rfl | rfl | rfl | rfl | rfl | rfl <;>
      simp only [Mesh.positiveDimensions, mkMesh, Geometry.dimensions, List.mem_cons,
        List.mem_singleton, List.not_mem_nil, or_false, forall_eq_or_imp, forall_eq] <;>
      (try refine ⟨?_, ?_, ?_⟩) <;> first | assumption | nlinarith

/-- C10, refuted as stated: for the mock profile the centre of the head
sphere is at y = 1.628775, which is not within 0.005 of 1.71. -/
theorem head_centre_below_height :
    ∃ head, (avatarMeshes 1.71 MOCK_PROFILE.selectedClothes).getLast? = some head ∧
      head.geometry = some (Geometry.sphere 0.0855 32 16) ∧
      head.position.y = 1.628775 ∧ ¬ |head.position.y - 1.71| ≤ 0.005 := by
  rw [avatarMeshes_eq]
  refine ⟨_, rfl, ?_, ?_, ?_⟩
  · simp only [mkMesh, headRadius, headProportion]; norm_num
  · simp only [mkMesh, shoeHeight, bottomHeight, topHeight, neckHeight, remainingHeight,
      headRadius, headProportion]
    norm_num
  · simp only [mkMesh, shoeHeight, bottomHeight, topHeight, neckHeight, remainingHeight,
      headRadius, headProportion]
    norm_num [abs_le]

/-- C10, amended: for the mock profile the head sphere has radius 0.0855, its
centre lies one radius below its top, the top is within 0.005 of 1.71, and
the centre lies between 1.62 and 1.63. -/
theorem head_top_near_height :
    ∃ head, (avatarMeshes 1.71 MOCK_PROFILE.selectedClothes).getLast? = some head ∧
      head.geometry = some (Geometry.sphere 0.0855 32 16) ∧
      head.topY = head.position.y + 0.0855 ∧
      |head.topY - 1.71| ≤ 0.005 ∧
      1.62 ≤ head.position.y ∧ head.position.y ≤ 1.63 := by
  rw [avatarMeshes_eq]
  refine ⟨_, rfl, ?_, ?_, ?_, ?_, ?_⟩ <;>
    simp only [Mesh.topY, Geometry.extentY, mkMesh, shoeHeight, bottomHeight, topHeight,
      neckHeight, remainingHeight, headRadius, headProportion] <;>
    norm_num [abs_le]

/-! ## The viewer: setup, resize, target adjustment -/

/-- On an attached container with no scene yet, the setup builds everything
and returns a cleanup function. -/
theorem sceneSetup_fresh (h : ℚ) (v : Viewer) (hatt : v.containerAttached = true)
    (hscene : v.sceneRef = none) :
    sceneSetup h v =
      ({ animate
          { v with
            sceneRef := some
              { background := 0xf0f0f0,
                objects :=
                  [ SceneObject.avatarGroup,
                    SceneObject.ambientLight 0xffffff 0.6,
                    SceneObject.directionalLight 0xffffff 1.0 ⟨2, 5, 3⟩,
                    SceneObject.groundPlane 10 10 0xdddddd ] },
            cameraRef := some
              { fov := 75,
                aspect :=
                  ((if v.container.clientWidth = 0 then 400 else v.container.clientWidth : Nat) : ℚ)
                    / ((if v.container.clientHeight = 0 then 400
                        else v.container.clientHeight : Nat) : ℚ),
                near := 0.1, far := 1000,
                position := ⟨0, h / 2, h * 1.8⟩, projectionUpdates := 0 },
            rendererRef := some
              { domElement := v.nextElement,
                width := if v.container.clientWidth = 0 then 400 else v.container.clientWidth,
                height := if v.container.clientHeight = 0 then 400 else v.container.clientHeight },
            controlsRef := some
              { target := ⟨0, h / 2, 0⟩, enableDamping := true, dampingFactor := 0.05,
                updateCalls := 0 },
            container := { v.container with children := v.container.children ++ [v.nextElement] },
            nextElement := v.nextElement + 1,
            constructions := v.constructions + 1 } with
          resizeListeners := v.resizeListeners ++ [v.nextElement] },
        some { domElement := v.nextElement, listener := v.nextElement }) := by
  simp [sceneSetup, hatt, hscene, animate]

/-- With a sufficient budget the mesh update effect is the pass followed by
the target adjustment. -/
theorem meshUpdateEffect_eq (update : OrbitUpdate) (fuel : Nat) (p : Profile)
    (sel : SelectedClothes) (v : Viewer) (hfuel : v.avatarGroup.children.length < fuel) :
    meshUpdateEffect update fuel p sel v =
      some (adjustTarget update p.height
        { v with avatarGroup :=
          { children := avatarMeshes p.height sel,
            disposedGeometries :=
              v.avatarGroup.disposedGeometries ++ v.avatarGroup.children.filterMap Mesh.geometry,
            disposedMaterials :=
              v.avatarGroup.disposedMaterials
                ++ v.avatarGroup.children.filterMap Mesh.material } }) := by
  simp [meshUpdateEffect, synthesisPass_eq fuel p sel v.avatarGroup hfuel]

/-- A target already at `height / 2` makes the adjustment do nothing. -/
theorem adjustTarget_aimed (update : OrbitUpdate) (h : ℚ) (v : Viewer)
    (controls : OrbitControls) (hc : v.controlsRef = some controls)
    (hy : controls.target.y = h / 2) :
    adjustTarget update h v = v := by
  simp [adjustTarget, hc, hy]

/-- A target off `height / 2` is set and `update()` is called once. -/
theorem adjustTarget_moved (update : OrbitUpdate) (h : ℚ) (v : Viewer)
    (controls : OrbitControls) (hc : v.controlsRef = some controls)
    (hy : controls.target.y ≠ h / 2) :
    adjustTarget update h v =
      { v with
        controlsRef := some
          { target := (update { controls with target := ⟨0, h / 2, 0⟩ } v.cameraRef).1,
            enableDamping := controls.enableDamping,
            dampingFactor := controls.dampingFactor,
            updateCalls := controls.updateCalls + 1 },
        cameraRef := (update { controls with target := ⟨0, h / 2, 0⟩ } v.cameraRef).2 } := by
  simp [adjustTarget, hc, hy]

/-- C11, refuted as stated: the viewer is set up for height 1.71 and a pass
runs for height 1.72 while a pan is in flight. The pass sets the target and
calls `update()`, which moves the target and the camera by the damped pan:
afterwards the target y is 0.91, not 1.72/2 = 0.86, and the camera is no
longer where it was before the pass. -/
theorem target_follows_update :
    (sceneSetup 1.71 (freshViewer 800 600)).1.cameraRef.map Camera.position
      = some ⟨0, 1.71 / 2, 1.71 * 1.8⟩ ∧
    ∃ v' controls' camera',
      meshUpdateEffect (dampedPanUpdate ⟨0, 1, 0⟩) 1 { MOCK_PROFILE with height := 1.72 }
        MOCK_PROFILE.selectedClothes (sceneSetup 1.71 (freshViewer 800 600)).1 = some v' ∧
      v'.controlsRef = some controls' ∧ controls'.target.y = 0.91 ∧
      controls'.target.y ≠ 1.72 / 2 ∧
      v'.cameraRef = some camera' ∧
      camera'.position ≠ ⟨0, 1.71 / 2, 1.71 * 1.8⟩ := by
  have hS := sceneSetup_fresh 1.71 (freshViewer 800 600) rfl rfl
  refine ⟨by rw [hS]; rfl, ?_⟩
  rw [meshUpdateEffect_eq _ 1 _ _ _ (by rw [hS]; decide)]
  rw [adjustTarget_moved _ _ _
    { target := ⟨0, 1.71 / 2, 0⟩, enableDamping := true, dampingFactor := 0.05,
      updateCalls := 1 } (by rw [hS]; rfl) (by norm_num)]
  rw [hS]
  refine ⟨_, _, _, rfl, rfl, ?_, ?_, rfl, ?_⟩
  · simp only [dampedPanUpdate, if_true]; norm_num
  · simp only [dampedPanUpdate, if_true]; norm_num
  · simp only [dampedPanUpdate, if_true, animate, Option.map_some', ne_eq, Vector3.mk.injEq]
    norm_num

/-- C11, amended: when a navigation control exists, the mesh update effect
returns. If the target y already is height/2 the control and the camera are
left exactly as they were: the target is not written and `update()` is not
called. Otherwise the target is set to (0, height/2, 0) and `update()` is
called exactly once, on the camera as it was; the control and the camera
afterwards are what that call leaves, and nothing else of them is written.
In particular, when that call leaves the target and the camera as it finds
them, the target y is height/2 afterwards and the camera is unchanged. -/
theorem target_adjustment (update : OrbitUpdate) (fuel : Nat) (p : Profile)
    (sel : SelectedClothes) (v : Viewer) (controls : OrbitControls)
    (hc : v.controlsRef = some controls) (hfuel : v.avatarGroup.children.length < fuel) :
    ∃ v', meshUpdateEffect update fuel p sel v = some v' ∧
      (controls.target.y = p.height / 2 →
        v'.controlsRef = some controls ∧ v'.cameraRef = v.cameraRef) ∧
      (controls.target.y ≠ p.height / 2 →
        v'.controlsRef = some
          { target := (update { controls with target := ⟨0, p.height / 2, 0⟩ } v.cameraRef).1,
            enableDamping := controls.enableDamping,
            dampingFactor := controls.dampingFactor,
            updateCalls := controls.updateCalls + 1 } ∧
        v'.cameraRef = (update { controls with target := ⟨0, p.height / 2, 0⟩ } v.cameraRef).2) ∧
      (update { controls with target := ⟨0, p.height / 2, 0⟩ } v.cameraRef
          = (⟨0, p.height / 2, 0⟩, v.cameraRef) →
        ∃ controls', v'.controlsRef = some controls' ∧
          controls'.target.y = p.height / 2 ∧ v'.cameraRef = v.cameraRef) := by
  rw [meshUpdateEffect_eq update fuel p sel v hfuel]
  have hc' : ∀ g, ({ v with avatarGroup := g } : Viewer).controlsRef = some controls :=
    fun _ => hc
  refine ⟨_, rfl, ?_, ?_, ?_⟩
  · intro hy
    rw [adjustTarget_aimed update _ _ controls (hc' _) hy]
    exact ⟨hc, rfl⟩
  · intro hy
    rw [adjustTarget_moved update _ _ controls (hc' _) hy]
    exact ⟨rfl, rfl⟩
  · intro hrest
    by_cases hy : controls.target.y = p.height / 2
    · rw [adjustTarget_aimed update _ _ controls (hc' _) hy]
      exact ⟨controls, hc, hy, rfl⟩
    · rw [adjustTarget_moved update _ _ controls (hc' _) hy]
      refine ⟨_, rfl, ?_, ?_⟩
      · show (update { controls with target := ⟨0, p.height / 2, 0⟩ } v.cameraRef).1.y = _
        rw [show (update { controls with target := ⟨0, p.height / 2, 0⟩ } v.cameraRef)
          = (⟨0, p.height / 2, 0⟩, v.cameraRef) from hrest]
      · show (update { controls with target := ⟨0, p.height / 2, 0⟩ } v.cameraRef).2 = _
        rw [show (update { controls with target := ⟨0, p.height / 2, 0⟩ } v.cameraRef)
          = (⟨0, p.height / 2, 0⟩, v.cameraRef) from hrest]

/-- Witness for C11: the viewer set up for height 1.71, then a pass for the
profile raised to 1.72 with nothing in flight: `update()` is called once (the
second call after the one of the render loop), the target y is 1.72/2 and the
camera is where it was. -/
theorem target_adjustment_witness :
    (sceneSetup 1.71 (freshViewer 800 600)).1.controlsRef
      = some { target := ⟨0, 1.71 / 2, 0⟩, enableDamping := true, dampingFactor := 0.05,
               updateCalls := 1 } ∧
    ∃ v',
      meshUpdateEffect restingUpdate 1 { MOCK_PROFILE with height := 1.72 }
        MOCK_PROFILE.selectedClothes (sceneSetup 1.71 (freshViewer 800 600)).1 = some v' ∧
      v'.controlsRef
        = some { target := ⟨0, 1.72 / 2, 0⟩, enableDamping := true, dampingFactor := 0.05,
                 updateCalls := 2 } ∧
      v'.cameraRef = (sceneSetup 1.71 (freshViewer 800 600)).1.cameraRef := by
  have hc : (sceneSetup 1.71 (freshViewer 800 600)).1.controlsRef
      = some { target := ⟨0, 1.71 / 2, 0⟩, enableDamping := true, dampingFactor := 0.05,
               updateCalls := 1 } := by
    rw [sceneSetup_fresh _ _ rfl rfl]; rfl
  have hfuel : (sceneSetup 1.71 (freshViewer 800 600)).1.avatarGroup.children.length < 1 := by
    rw [sceneSetup_fresh _ _ rfl rfl]; decide
  obtain ⟨v', h1, -, h3, -⟩ :=
    target_adjustment restingUpdate 1 { MOCK_PROFILE with height := 1.72 }
      MOCK_PROFILE.selectedClothes (sceneSetup 1.71 (freshViewer 800 600)).1 _ hc hfuel
  have hne : (1.71 : ℚ) / 2 ≠ (1.72 : ℚ) / 2 := by norm_num
  exact ⟨hc, v', h1, (h3 hne).1, (h3 hne).2⟩

/-- C13: `handleResize` on a viewer whose camera and renderer exist. When the
container's width or height is 0 the viewer is left exactly as it was, so the
camera aspect and the renderer size are unchanged; when both are positive
the aspect becomes width/height and the renderer size (width, height). -/
theorem handleResize_frame (v : Viewer) (camera : Camera) (renderer : Renderer)
    (hatt : v.containerAttached = true) (hcam : v.cameraRef = some camera)
    (hren : v.rendererRef = some renderer) :
    (v.container.clientWidth = 0 ∨ v.container.clientHeight = 0 → handleResize v = v) ∧
    (0 < v.container.clientWidth ∧ 0 < v.container.clientHeight →
      ∃ camera' renderer', (handleResize v).cameraRef = some camera' ∧
        (handleResize v).rendererRef = some renderer' ∧
        camera'.aspect = (v.container.clientWidth : ℚ) / (v.container.clientHeight : ℚ) ∧
        renderer'.width = v.container.clientWidth ∧
        renderer'.height = v.container.clientHeight ∧
        camera'.position = camera.position) := by
  constructor
  · intro hzero
    have hno : ¬ (v.container.clientWidth > 0 ∧ v.container.clientHeight > 0) := by omega
    simp only [handleResize, hatt, hcam, hren, hno, if_false]
  · intro hpos
    have hyes : v.container.clientWidth > 0 ∧ v.container.clientHeight > 0 := hpos
    have hres : handleResize v =
        { v with
          cameraRef := some
            { camera with
              aspect := (v.container.clientWidth : ℚ) / (v.container.clientHeight : ℚ),
              projectionUpdates := camera.projectionUpdates + 1 },
          rendererRef := some
            { renderer with
              width := v.container.clientWidth, height := v.container.clientHeight } } := by
      simp only [handleResize, hatt, hcam, hren, hyes, and_self, if_true]
    rw [hres]
    exact ⟨_, _, rfl, rfl, rfl, rfl, rfl, rfl⟩

/-- Witness for C13: the viewer set up on an 800x600 container, which then
collapses to (0, 0). -/
theorem handleResize_frame_witness :
    handleResize
        { (sceneSetup 1.71 (freshViewer 800 600)).1 with
          container := { clientWidth := 0, clientHeight := 0, children := [1] } }
      = { (sceneSetup 1.71 (freshViewer 800 600)).1 with
          container := { clientWidth := 0, clientHeight := 0, children := [1] } } ∧
    ∃ camera' renderer',
      (handleResize
        { (sceneSetup 1.71 (freshViewer 800 600)).1 with
          container := { clientWidth := 1024, clientHeight := 512, children := [1] } }).cameraRef
        = some camera' ∧
      (handleResize
        { (sceneSetup 1.71 (freshViewer 800 600)).1 with
          container := { clientWidth := 1024, clientHeight := 512, children := [1] } }).rendererRef
        = some renderer' ∧
      camera'.aspect = ((1024 : Nat) : ℚ) / ((512 : Nat) : ℚ) ∧
      renderer'.width = 1024 ∧ renderer'.height = 512 := by
  have hsetup := sceneSetup_fresh 1.71 (freshViewer 800 600) rfl rfl
  refine ⟨(handleResize_frame _ _ _ (by rw [hsetup]; rfl) (by rw [hsetup]; rfl)
    (by rw [hsetup]; rfl)).1 (Or.inl rfl), ?_⟩
  obtain ⟨camera', renderer', h1, h2, h3, h4, h5, -⟩ :=
    (handleResize_frame
      { (sceneSetup 1.71 (freshViewer 800 600)).1 with
        container := { clientWidth := 1024, clientHeight := 512, children := [1] } } _ _
      (by rw [hsetup]; rfl) (by rw [hsetup]; rfl) (by rw [hsetup]; rfl)).2
      ⟨by decide, by decide⟩
  exact ⟨camera', renderer', h1, h2, h3, h4, h5⟩

/-- C14: on a container not yet laid out the setup substitutes 400 for each
zero dimension: the renderer size is the container size with every 0
replaced by 400, both dimensions are strictly positive, the camera aspect is
their quotient and is strictly positive, and it is 1 for a (0, 0)
container. -/
theorem setup_default_size (h : ℚ) (v : Viewer) (hatt : v.containerAttached = true)
    (hscene : v.sceneRef = none) :
    ∃ camera renderer, (sceneSetup h v).1.cameraRef = some camera ∧
      (sceneSetup h v).1.rendererRef = some renderer ∧
      renderer.width = (if v.container.clientWidth = 0 then 400 else v.container.clientWidth) ∧
      renderer.height
        = (if v.container.clientHeight = 0 then 400 else v.container.clientHeight) ∧
      0 < renderer.width ∧ 0 < renderer.height ∧
      camera.aspect = (renderer.width : ℚ) / (renderer.height : ℚ) ∧
      0 < camera.aspect ∧
      (v.container.clientWidth = 0 ∧ v.container.clientHeight = 0 → camera.aspect = 1) := by
  rw [sceneSetup_fresh h v hatt hscene]
  have hw : 0 < (if v.container.clientWidth = 0 then 400 else v.container.clientWidth) := by
    split <;> omega
  have hh : 0 < (if v.container.clientHeight = 0 then 400 else v.container.clientHeight) := by
    split <;> omega
  refine ⟨_, _, rfl, rfl, rfl, rfl, hw, hh, rfl, ?_, ?_⟩
  · exact div_pos (by exact_mod_cast hw) (by exact_mod_cast hh)
  · rintro ⟨h0w, h0h⟩
    simp [h0w, h0h]

/-- Witness for C14: setup on a container of size (0, 0). -/
theorem setup_default_size_witness :
    ∃ camera renderer, (sceneSetup 1.71 (freshViewer 0 0)).1.cameraRef = some camera ∧
      (sceneSetup 1.71 (freshViewer 0 0)).1.rendererRef = some renderer ∧
      renderer.width = 400 ∧ renderer.height = 400 ∧ camera.aspect = 1 := by
  obtain ⟨camera, renderer, h1, h2, h3, h4, -, -, -, -, h9⟩ :=
    setup_default_size 1.71 (freshViewer 0 0) rfl rfl
  exact ⟨camera, renderer, h1, h2, h3, h4, h9 ⟨rfl, rfl⟩⟩

/-- C15: the setup for initial height h places the camera at y = h/2 and
z = 1.8h, points the navigation control at (0, h/2, 0), and builds a
perspective camera with field of view 75, near plane 0.1 and far plane 1000
(at least 100); the camera distance is strictly increasing in h. -/
theorem initial_framing (h : ℚ) (v : Viewer) (hatt : v.containerAttached = true)
    (hscene : v.sceneRef = none) :
    ∃ camera controls, (sceneSetup h v).1.cameraRef = some camera ∧
      (sceneSetup h v).1.controlsRef = some controls ∧
      camera.position.y = h / 2 ∧ controls.target.y = h / 2 ∧
      controls.target.x = 0 ∧ controls.target.z = 0 ∧
      camera.fov = 75 ∧ camera.near = 0.1 ∧ camera.far = 1000 ∧ 100 ≤ camera.far ∧
      camera.position.z = h * 1.8 ∧
      ∀ h2 : ℚ, h < h2 →
        ∃ camera2, (sceneSetup h2 v).1.cameraRef = some camera2 ∧
          camera.position.z < camera2.position.z := by
  rw [sceneSetup_fresh h v hatt hscene]
  refine ⟨_, _, rfl, rfl, rfl, rfl, rfl, rfl, rfl, rfl, rfl, by norm_num [animate], rfl, ?_⟩
  intro h2 hlt
  rw [sceneSetup_fresh h2 v hatt hscene]
  refine ⟨_, rfl, ?_⟩
  simp only [animate]
  norm_num
  linarith

/-- Witness for C15: the setup for the mock profile's height 1.71. -/
theorem initial_framing_witness :
    ∃ camera controls, (sceneSetup 1.71 (freshViewer 800 600)).1.cameraRef = some camera ∧
      (sceneSetup 1.71 (freshViewer 800 600)).1.controlsRef = some controls ∧
      camera.position.y = 1.71 / 2 ∧ controls.target.y = 1.71 / 2 ∧
      camera.fov = 75 ∧ camera.near = 0.1 ∧ camera.far = 1000 ∧
      camera.position.z = 1.71 * 1.8 := by
  obtain ⟨camera, controls, h1, h2, h3, h4, -, -, h7, h8, h9, -, h11, -⟩ :=
    initial_framing 1.71 (freshViewer 800 600) rfl rfl
  exact ⟨camera, controls, h1, h2, h3, h4, h7, h8, h9, h11⟩

/-! ## The viewer: cleanup and render loop -/

/-- The cleanup never throws; this is the state it leaves. -/
theorem sceneCleanup_ok (c : Cleanup) (v : Viewer) :
    sceneCleanup c v =
      Except.ok
        { v with
          resizeListeners := v.resizeListeners.filter (fun l => l ≠ c.listener),
          pendingFrames :=
            match v.animationFrameIdRef with
            | some id => v.pendingFrames.filter (fun j => j ≠ id)
            | none => v.pendingFrames,
          container :=
            { v.container with
              children := v.container.children.filter (fun e => e ≠ c.domElement) },
          disposedRenderers := v.disposedRenderers ++ [c.domElement],
          sceneRef := none,
          cameraRef := none,
          rendererRef := none,
          controlsRef := none,
          avatarGroup := { v.avatarGroup with children := [] },
          cleanupRuns := v.cleanupRuns + 1 } := by
  by_cases hmem : c.domElement ∈ v.container.children
  · simp [sceneCleanup, removeChild, hmem, bind, Except.bind, pure, Except.pure]
  · have hfilter : v.container.children.filter (fun e => !decide (e = c.domElement))
        = v.container.children := by
      rw [List.filter_eq_self]
      intro e he
      have : e ≠ c.domElement := fun heq => hmem (heq ▸ he)
      simpa using this
    simp [sceneCleanup, hmem, bind, Except.bind, pure, Except.pure, hfilter]

/-- `handleResize` leaves the frame requests and the listeners alone. -/
theorem handleResize_frames (v : Viewer) :
    (handleResize v).pendingFrames = v.pendingFrames ∧
    (handleResize v).animationFrameIdRef = v.animationFrameIdRef ∧
    (handleResize v).avatarGroup = v.avatarGroup := by
  unfold handleResize
  split
  · dsimp only
    split <;> exact ⟨rfl, rfl, rfl⟩
  · exact ⟨rfl, rfl, rfl⟩

/-- However many listeners run, the frame requests stay as they were. -/
theorem resize_listeners_frames (ls : List Nat) (v : Viewer) :
    (ls.foldl (fun acc _ => handleResize acc) v).pendingFrames = v.pendingFrames ∧
    (ls.foldl (fun acc _ => handleResize acc) v).animationFrameIdRef
      = v.animationFrameIdRef := by
  induction ls generalizing v with
  | nil => exact ⟨rfl, rfl⟩
  | cons l rest ih =>
    simp only [List.foldl_cons]
    obtain ⟨h1, h2⟩ := ih (handleResize v)
    exact ⟨h1.trans (handleResize_frames v).1, h2.trans (handleResize_frames v).2.1⟩

/-- The target adjustment leaves the frame requests alone. -/
theorem adjustTarget_frames (update : OrbitUpdate) (h : ℚ) (v : Viewer) :
    (adjustTarget update h v).pendingFrames = v.pendingFrames ∧
    (adjustTarget update h v).animationFrameIdRef = v.animationFrameIdRef := by
  unfold adjustTarget
  split
  · exact ⟨rfl, rfl⟩
  · dsimp only
    split <;> exact ⟨rfl, rfl⟩

/-- One event keeps the loop invariant: exactly one frame request is pending
and `animationFrameIdRef` holds its id. -/
theorem viewerStep_invariant (update : OrbitUpdate) (e : ViewerEvent) (v : Viewer) (id : Nat)
    (hpend : v.pendingFrames = [id]) (href : v.animationFrameIdRef = some id) :
    ∃ v' id', viewerStep update e v = some v' ∧ v'.pendingFrames = [id'] ∧
      v'.animationFrameIdRef = some id' := by
  cases e with
  | frame j =>
    by_cases hj : j = id
    · subst hj
      refine ⟨_, v.nextFrameId, rfl, ?_, ?_⟩ <;>
        simp [frameTick, hpend, animate]
    · refine ⟨_, id, rfl, ?_, ?_⟩ <;> simp [frameTick, hpend, hj, href]
  | resize w h =>
    refine ⟨_, id, rfl, ?_, ?_⟩
    · rw [(resize_listeners_frames _ _).1]; exact hpend
    · rw [(resize_listeners_frames _ _).2]; exact href
  | meshUpdate p sel =>
    refine ⟨_, id, meshUpdateEffect_eq update _ p sel v (Nat.lt_succ_self _), ?_, ?_⟩
    · rw [(adjustTarget_frames _ _ _).1]; exact hpend
    · rw [(adjustTarget_frames _ _ _).2]; exact href

/-- Any sequence of events keeps the loop invariant. -/
theorem runEvents_invariant (update : OrbitUpdate) (events : List ViewerEvent) (v : Viewer)
    (id : Nat) (hpend : v.pendingFrames = [id]) (href : v.animationFrameIdRef = some id) :
    ∃ v' id', runEvents update events v = some v' ∧ v'.pendingFrames = [id'] ∧
      v'.animationFrameIdRef = some id' := by
  induction events generalizing v id with
  | nil => exact ⟨v, id, rfl, hpend, href⟩
  | cons e rest ih =>
    obtain ⟨v1, id1, hstep, hp1, hr1⟩ := viewerStep_invariant update e v id hpend href
    obtain ⟨v2, id2, hrun, hp2, hr2⟩ := ih v1 id1 hp1 hr1
    exact ⟨v2, id2, by simp [runEvents, hstep, hrun], hp2, hr2⟩

/-- With no frame request pending, no sequence of frame firings changes the
viewer. -/
theorem no_tick_without_request (ids : List Nat) (v : Viewer) (hpend : v.pendingFrames = []) :
    ids.foldl (fun acc i => frameTick i acc) v = v := by
  induction ids with
  | nil => rfl
  | cons i rest ih =>
    have hstep : frameTick i v = v := by simp [frameTick, hpend]
    simp only [List.foldl_cons, hstep]
    exact ih

/-- C16: after a setup that started with no frame request pending, and after
any sequence of frame firings, resizes and mesh updates (whatever the
`update()` calls of the mesh updates do to the target and the camera),
exactly one frame request is pending and `animationFrameIdRef` holds its id;
the cleanup cancels it, leaving no request pending, so that no frame firing
runs `animate` again: the viewer stays as the cleanup left it. -/
theorem render_loop_cancelled (update : OrbitUpdate) (h : ℚ) (v0 : Viewer)
    (hatt : v0.containerAttached = true) (hscene : v0.sceneRef = none)
    (hpend : v0.pendingFrames = []) (events : List ViewerEvent) :
    ∃ c v1 id v2, (sceneSetup h v0).2 = some c ∧
      runEvents update events (sceneSetup h v0).1 = some v1 ∧
      v1.pendingFrames = [id] ∧ v1.animationFrameIdRef = some id ∧
      sceneCleanup c v1 = Except.ok v2 ∧ v2.pendingFrames = [] ∧
      v2.framesRendered = v1.framesRendered ∧
      ∀ ids : List Nat, ids.foldl (fun acc i => frameTick i acc) v2 = v2 := by
  have hp : (sceneSetup h v0).1.pendingFrames = [v0.nextFrameId] := by
    rw [sceneSetup_fresh h v0 hatt hscene]; simp [animate, hpend]
  have hr : (sceneSetup h v0).1.animationFrameIdRef = some v0.nextFrameId := by
    rw [sceneSetup_fresh h v0 hatt hscene]; simp [animate]
  obtain ⟨v1, id, hrun, hp1, hr1⟩ := runEvents_invariant update events _ _ hp hr
  have hclean := sceneCleanup_ok ⟨v0.nextElement, v0.nextElement⟩ v1
  refine ⟨⟨v0.nextElement, v0.nextElement⟩, v1, id, _, ?_, hrun, hp1, hr1, hclean, ?_, rfl, ?_⟩
  · rw [sceneSetup_fresh h v0 hatt hscene]
  · simp [hp1, hr1]
  · intro ids
    exact no_tick_without_request ids _ (by simp [hp1, hr1])

/-- Witness for C16: setup for the mock height on a fresh 800x600 viewer, then
two frames, a resize and a mesh update. -/
theorem render_loop_cancelled_witness :
    ∃ c v1 id v2, (sceneSetup 1.71 (freshViewer 800 600)).2 = some c ∧
      runEvents restingUpdate
          [ ViewerEvent.frame 1, ViewerEvent.frame 2, ViewerEvent.resize 640 480,
            ViewerEvent.meshUpdate MOCK_PROFILE MOCK_PROFILE.selectedClothes ]
          (sceneSetup 1.71 (freshViewer 800 600)).1 = some v1 ∧
      v1.pendingFrames = [id] ∧ v1.animationFrameIdRef = some id ∧
      sceneCleanup c v1 = Except.ok v2 ∧ v2.pendingFrames = [] ∧
      v2.framesRendered = v1.framesRendered ∧
      ∀ ids : List Nat, ids.foldl (fun acc i => frameTick i acc) v2 = v2 :=
  render_loop_cancelled restingUpdate 1.71 (freshViewer 800 600) rfl rfl rfl _

/-- C17: the cleanup never throws, in whatever state it is run, so it can run
twice in a row or right after the setup. After the first run the scene,
camera, renderer and controls refs are null, the avatar group is empty and
the canvas is not in the container; the container is left untouched when it
did not hold the canvas; and the second run leaves refs, group, container,
frame requests and listeners as the first run left them. -/
theorem cleanup_repeatable (c : Cleanup) (v : Viewer) :
    ∃ v1 v2, sceneCleanup c v = Except.ok v1 ∧ sceneCleanup c v1 = Except.ok v2 ∧
      v1.sceneRef = none ∧ v1.cameraRef = none ∧ v1.rendererRef = none ∧
      v1.controlsRef = none ∧ v1.avatarGroup.children = [] ∧
      c.domElement ∉ v1.container.children ∧
      (c.domElement ∉ v.container.children → v1.container = v.container) ∧
      v2.sceneRef = none ∧ v2.cameraRef = none ∧ v2.rendererRef = none ∧
      v2.controlsRef = none ∧ v2.avatarGroup = v1.avatarGroup ∧
      v2.container = v1.container ∧ v2.pendingFrames = v1.pendingFrames ∧
      v2.resizeListeners = v1.resizeListeners ∧
      v2.animationFrameIdRef = v1.animationFrameIdRef := by
  refine ⟨_, _, sceneCleanup_ok c v, sceneCleanup_ok c _, rfl, rfl, rfl, rfl, rfl, ?_, ?_,
    rfl, rfl, rfl, rfl, rfl, ?_, ?_, ?_, rfl⟩
  · simp
  · intro hmem
    have hfilter : v.container.children.filter (fun e => !decide (e = c.domElement))
        = v.container.children := by
      rw [List.filter_eq_self]
      intro e he
      have : e ≠ c.domElement := fun heq => hmem (heq ▸ he)
      simpa using this
    simp [hfilter]
  · simp
  · cases hid : v.animationFrameIdRef <;> simp [hid]
  · simp

/-! ## The effect schedule -/

/-- With a sufficient budget and the target already at `height / 2`, the mesh
update effect replaces the avatar group and writes nothing else. -/
theorem meshUpdateEffect_aimed (update : OrbitUpdate) (fuel : Nat) (p : Profile)
    (sel : SelectedClothes) (v : Viewer) (controls : OrbitControls)
    (hc : v.controlsRef = some controls) (hy : controls.target.y = p.height / 2)
    (hfuel : v.avatarGroup.children.length < fuel) :
    meshUpdateEffect update fuel p sel v =
      some { v with avatarGroup :=
        { children := avatarMeshes p.height sel,
          disposedGeometries :=
            v.avatarGroup.disposedGeometries ++ v.avatarGroup.children.filterMap Mesh.geometry,
          disposedMaterials :=
            v.avatarGroup.disposedMaterials
              ++ v.avatarGroup.children.filterMap Mesh.material } } := by
  rw [meshUpdateEffect_eq update fuel p sel v hfuel]
  have hc' : ∀ g, ({ v with avatarGroup := g } : Viewer).controlsRef = some controls :=
    fun _ => hc
  rw [adjustTarget_aimed update _ _ controls (hc' _) hy]

/-- Mounting on an attached container without a scene runs the setup once. -/
theorem mountViewer_fresh (update : OrbitUpdate) (p : Profile) (v : Viewer)
    (hatt : v.containerAttached = true) (hscene : v.sceneRef = none) :
    ∃ m camera, mountViewer update p v = some m ∧
      m.cleanup = some ⟨v.nextElement, v.nextElement⟩ ∧ m.profile = p ∧
      m.viewer.containerAttached = true ∧ m.viewer.sceneRef.isSome = true ∧
      m.viewer.constructions = v.constructions + 1 ∧
      m.viewer.cleanupRuns = v.cleanupRuns ∧
      m.viewer.nextElement = v.nextElement + 1 ∧
      m.viewer.disposedRenderers = v.disposedRenderers ∧
      m.viewer.container.children = v.container.children ++ [v.nextElement] ∧
      m.viewer.rendererRef.map Renderer.domElement = some v.nextElement ∧
      m.viewer.cameraRef = some camera ∧
      camera.position = ⟨0, p.height / 2, p.height * 1.8⟩ := by
  have hS := sceneSetup_fresh p.height v hatt hscene
  have hc : (sceneSetup p.height v).1.controlsRef
      = some { target := ⟨0, p.height / 2, 0⟩, enableDamping := true, dampingFactor := 0.05,
               updateCalls := 1 } := by
    rw [hS]; rfl
  have hv' := meshUpdateEffect_aimed update
    ((sceneSetup p.height v).1.avatarGroup.children.length + 1) p p.selectedClothes
    (sceneSetup p.height v).1 _ hc rfl (Nat.lt_succ_self _)
  refine ⟨⟨{ (sceneSetup p.height v).1 with avatarGroup :=
        { children := avatarMeshes p.height p.selectedClothes,
          disposedGeometries :=
            (sceneSetup p.height v).1.avatarGroup.disposedGeometries
              ++ (sceneSetup p.height v).1.avatarGroup.children.filterMap Mesh.geometry,
          disposedMaterials :=
            (sceneSetup p.height v).1.avatarGroup.disposedMaterials
              ++ (sceneSetup p.height v).1.avatarGroup.children.filterMap Mesh.material } },
      p, (sceneSetup p.height v).2⟩,
    { fov := 75,
      aspect :=
        ((if v.container.clientWidth = 0 then 400 else v.container.clientWidth : Nat) : ℚ)
          / ((if v.container.clientHeight = 0 then 400 else v.container.clientHeight : Nat) : ℚ),
      near := 0.1, far := 1000,
      position := ⟨0, p.height / 2, p.height * 1.8⟩, projectionUpdates := 0 },
    ?_, ?_, rfl, ?_, ?_, ?_, ?_, ?_, ?_, ?_, ?_, ?_, rfl⟩
  · simp only [mountViewer, hv', Option.map_some']
  · show (sceneSetup p.height v).2 = _
    rw [hS]
  · show (sceneSetup p.height v).1.containerAttached = true
    rw [hS]; exact hatt
  · show (sceneSetup p.height v).1.sceneRef.isSome = true
    rw [hS]; rfl
  · show (sceneSetup p.height v).1.constructions = _
    rw [hS]; rfl
  · show (sceneSetup p.height v).1.cleanupRuns = _
    rw [hS]; rfl
  · show (sceneSetup p.height v).1.nextElement = _
    rw [hS]; rfl
  · show (sceneSetup p.height v).1.disposedRenderers = _
    rw [hS]; rfl
  · show (sceneSetup p.height v).1.container.children = _
    rw [hS]; rfl
  · show (sceneSetup p.height v).1.rendererRef.map Renderer.domElement = _
    rw [hS]; rfl
  · show (sceneSetup p.height v).1.cameraRef = _
    rw [hS]; rfl

/-- An update that changes the height runs the stored cleanup and then the
whole setup again, whatever the camera position was. -/
theorem updateViewer_height (update : OrbitUpdate) (p : Profile) (selectionIsNew : Bool)
    (m : Mounted) (c : Cleanup)
    (hclean : m.cleanup = some c) (hheight : p.height ≠ m.profile.height)
    (hatt : m.viewer.containerAttached = true) :
    ∃ m' camera, updateViewer update p selectionIsNew m = some m' ∧
      m'.viewer.constructions = m.viewer.constructions + 1 ∧
      m'.viewer.cleanupRuns = m.viewer.cleanupRuns + 1 ∧
      m'.viewer.disposedRenderers = m.viewer.disposedRenderers ++ [c.domElement] ∧
      m'.viewer.rendererRef.map Renderer.domElement = some m.viewer.nextElement ∧
      m'.viewer.cameraRef = some camera ∧
      camera.position = ⟨0, p.height / 2, p.height * 1.8⟩ := by
  obtain ⟨v1, hsc, hatt1, hscene1, hcon1, hcl1, hne1, hd1⟩ :
      ∃ v1, sceneCleanup c m.viewer = Except.ok v1 ∧ v1.containerAttached = true ∧
        v1.sceneRef = none ∧ v1.constructions = m.viewer.constructions ∧
        v1.cleanupRuns = m.viewer.cleanupRuns + 1 ∧ v1.nextElement = m.viewer.nextElement ∧
        v1.disposedRenderers = m.viewer.disposedRenderers ++ [c.domElement] :=
    ⟨_, sceneCleanup_ok c m.viewer, hatt, rfl, rfl, rfl, rfl, rfl⟩
  have hrun : runCleanup m.cleanup m.viewer = some v1 := by
    rw [hclean, runCleanup, hsc]; rfl
  obtain ⟨m', camera, hm, -, -, -, -, h5, h6, h7, h8, -, h10, h11, h12⟩ :=
    mountViewer_fresh update p v1 hatt1 hscene1
  refine ⟨m', camera, ?_, by rw [h5, hcon1], by rw [h6, hcl1], by rw [h8, hd1],
    by rw [h10, hne1], h11, h12⟩
  unfold updateViewer
  rw [if_pos hheight, hrun]
  exact hm

/-- C12 (defect in the code): a viewer is mounted for the mock profile on an
800x600 container, and the height is then raised to 1.72. The mount ran the
setup once and no cleanup. The update runs the cleanup and the whole setup
again: two scenes, cameras, renderers and controls have been constructed,
the first renderer is disposed and a second canvas is in use, and wherever
the user had moved the camera it is back at (0, 0.86, 3.096). While the scene
exists, a further call of the setup does nothing. This holds whatever
`update()` does to the target and the camera. -/
theorem height_change_rebuilds_scene (update : OrbitUpdate) :
    ∃ m0, mountViewer update MOCK_PROFILE (freshViewer 800 600) = some m0 ∧
      m0.viewer.constructions = 1 ∧ m0.viewer.cleanupRuns = 0 ∧
      m0.viewer.rendererRef.map Renderer.domElement = some 1 ∧
      sceneSetup 1.72 m0.viewer = (m0.viewer, none) ∧
      ∀ moved : Vector3, ∃ m1 camera,
        updateViewer update { MOCK_PROFILE with height := 1.72 } false
            { m0 with viewer :=
              { m0.viewer with cameraRef :=
                m0.viewer.cameraRef.map (fun cam => { cam with position := moved }) } }
          = some m1 ∧
        m1.viewer.constructions = 2 ∧ m1.viewer.cleanupRuns = 1 ∧
        m1.viewer.disposedRenderers = [1] ∧
        m1.viewer.rendererRef.map Renderer.domElement = some 2 ∧
        m1.viewer.cameraRef = some camera ∧ camera.position = ⟨0, 0.86, 3.096⟩ := by
  obtain ⟨m0, camera0, hm0, hc0, hp0, hatt0, hscene0, hcon0, hcl0, hne0, hd0, -, hr0, -, -⟩ :=
    mountViewer_fresh update MOCK_PROFILE (freshViewer 800 600) rfl rfl
  refine ⟨m0, hm0, hcon0, hcl0, hr0, ?_, ?_⟩
  · cases hs : m0.viewer.sceneRef with
    | none => rw [hs] at hscene0; exact absurd hscene0 (by decide)
    | some sc => simp [sceneSetup, hatt0, hs]
  · intro moved
    have hheight : ({ MOCK_PROFILE with height := 1.72 } : Profile).height
        ≠ ({ m0 with viewer :=
              { m0.viewer with cameraRef :=
                m0.viewer.cameraRef.map (fun cam => { cam with position := moved }) } }
            : Mounted).profile.height := by
      show (1.72 : ℚ) ≠ m0.profile.height
      rw [hp0]; norm_num [MOCK_PROFILE]
    obtain ⟨m1, camera, hm1, h1, h2, h3, h4, h5, h6⟩ :=
      updateViewer_height update { MOCK_PROFILE with height := 1.72 } false
        { m0 with viewer :=
          { m0.viewer with cameraRef :=
            m0.viewer.cameraRef.map (fun cam => { cam with position := moved }) } }
        ⟨1, 1⟩ hc0 hheight hatt0
    refine ⟨m1, camera, hm1, ?_, ?_, ?_, ?_, h5, ?_⟩
    · rw [h1]; show m0.viewer.constructions + 1 = 2; rw [hcon0]; rfl
    · rw [h2]; show m0.viewer.cleanupRuns + 1 = 1; rw [hcl0]; rfl
    · rw [h3]; show m0.viewer.disposedRenderers ++ [1] = [1]; rw [hd0]; rfl
    · rw [h4]; show some m0.viewer.nextElement = some 2; rw [hne0]; rfl
    · rw [h6]
      show (⟨0, (1.72 : ℚ) / 2, (1.72 : ℚ) * 1.8⟩ : Vector3) = ⟨0, 0.86, 3.096⟩
      norm_num

/-! ## Clothing selection -/

/-- The key just set reads back as the new item id. -/
theorem lookup_setKey_self (category itemId : String) (sel : SelectedClothes) :
    (setKey category itemId sel).lookup category = some itemId := by
  induction sel with
  | nil => simp [setKey, List.lookup]
  | cons e rest ih =>
    obtain ⟨k, v⟩ := e
    by_cases hk : k = category
    · subst hk; simp [setKey, List.lookup]
    · have hne : (category == k) = false := by
        simpa using fun heq : category = k => hk heq.symm
      simp [setKey, hk, List.lookup, hne, ih]

/-- Every other key reads as before. -/
theorem lookup_setKey_other (category itemId key : String) (sel : SelectedClothes)
    (hkey : key ≠ category) :
    (setKey category itemId sel).lookup key = sel.lookup key := by
  induction sel with
  | nil =>
    have hne : (key == category) = false := by simpa using hkey
    simp [setKey, List.lookup, hne]
  | cons e rest ih =>
    obtain ⟨k, v⟩ := e
    by_cases hk : k = category
    · subst hk
      have hne : (key == k) = false := by simpa using hkey
      simp [setKey, List.lookup, hne]
    · by_cases hkk : key = k
      · subst hkk; simp [setKey, hk, List.lookup]
      · have hne : (key == k) = false := by simpa using hkk
        simp [setKey, hk, List.lookup, hne, ih]

/-- The keys after a set: unchanged when the key was present, extended by it
otherwise. -/
theorem keys_setKey (category itemId : String) (sel : SelectedClothes) :
    (setKey category itemId sel).map Prod.fst =
      if category ∈ sel.map Prod.fst then sel.map Prod.fst
      else sel.map Prod.fst ++ [category] := by
  induction sel with
  | nil => simp [setKey]
  | cons e rest ih =>
    obtain ⟨k, v⟩ := e
    by_cases hk : k = category
    · subst hk; simp [setKey]
    · have hne : ¬ category = k := fun heq => hk heq.symm
      by_cases hmem : category ∈ rest.map Prod.fst
      · rw [if_pos hmem] at ih
        have hmem' : ∃ x, (category, x) ∈ rest := by simpa using hmem
        simp [setKey, hk, hne, ih, hmem']
      · rw [if_neg hmem] at ih
        have hmem' : ∀ x, (category, x) ∉ rest := by simpa using hmem
        simp [setKey, hk, hne, ih, hmem']

/-- Distinct keys stay distinct. -/
theorem keys_setKey_nodup (category itemId : String) (sel : SelectedClothes)
    (hnd : (sel.map Prod.fst).Nodup) :
    ((setKey category itemId sel).map Prod.fst).Nodup := by
  rw [keys_setKey]
  split
  · exact hnd
  · next hmem =>
    rw [List.nodup_append]
    refine ⟨hnd, List.nodup_singleton _, ?_⟩
    intro a ha hb
    rw [List.mem_singleton] at hb
    exact hmem (hb ▸ ha)

/-- C18: `handleClothingSelect(category, itemId)` returns null on a null
profile; on a profile it returns a profile whose `selectedClothes[category]`
is `itemId`, whose other keys read as before, whose id, name, height and
body type are unchanged, and whose keys are still pairwise distinct, so that
the category holds exactly this one item id. -/
theorem handleClothingSelect_frame (category itemId : String) (p : Profile) :
    handleClothingSelect category itemId none = none ∧
    ∃ p', handleClothingSelect category itemId (some p) = some p' ∧
      p'.selectedClothes.lookup category = some itemId ∧
      (∀ key, key ≠ category → p'.selectedClothes.lookup key = p.selectedClothes.lookup key) ∧
      p'.id = p.id ∧ p'.name = p.name ∧ p'.height = p.height ∧ p'.bodyType = p.bodyType ∧
      ((p.selectedClothes.map Prod.fst).Nodup → (p'.selectedClothes.map Prod.fst).Nodup) ∧
      ((p.selectedClothes.map Prod.fst).Nodup →
        (p'.selectedClothes.map Prod.fst).count category = 1) := by
  refine ⟨rfl, _, rfl, lookup_setKey_self _ _ _, fun key hkey => lookup_setKey_other _ _ _ _ hkey,
    rfl, rfl, rfl, rfl, keys_setKey_nodup _ _ _, ?_⟩
  intro hnd
  have hnd' := keys_setKey_nodup category itemId p.selectedClothes hnd
  have hmem : category ∈ (setKey category itemId p.selectedClothes).map Prod.fst := by
    rw [keys_setKey]
    split
    · assumption
    · simp
  exact List.count_eq_one_of_mem hnd' hmem

/-- Witness for C18: the mock profile changes its top from the red to the
white t-shirt. -/
theorem handleClothingSelect_frame_witness :
    (MOCK_PROFILE.selectedClothes.map Prod.fst).Nodup ∧
    handleClothingSelect "top" "t-shirt-white" (some MOCK_PROFILE)
      = some { MOCK_PROFILE with
          selectedClothes :=
            [ ("top", "t-shirt-white"), ("bottom", "shorts-khaki"), ("shoes", "boots-brown") ] } ∧
    ∃ p', handleClothingSelect "top" "t-shirt-white" (some MOCK_PROFILE) = some p' ∧
      p'.selectedClothes.lookup "top" = some "t-shirt-white" ∧
      (p'.selectedClothes.map Prod.fst).count "top" = 1 := by
  have hnd : (MOCK_PROFILE.selectedClothes.map Prod.fst).Nodup := by decide
  obtain ⟨p', h1, h2, -, -, -, -, -, -, h9⟩ :=
    (handleClothingSelect_frame "top" "t-shirt-white" MOCK_PROFILE).2
  exact ⟨hnd, by simp [handleClothingSelect, setKey, MOCK_PROFILE], p', h1, h2, h9 hnd⟩

end AvatarPage


namespace ClothingList

/-! ## The clothing list toggle -/

/-- The three paths of `toggleClothing`, by the two `some` tests and the
exempt types. -/
theorem toggleClothing_cases (sel : List Item) (item : Item) :
    ((∃ c ∈ sel, c.id = item.id) →
      toggleClothing sel item
        = ⟨some (sel.filter (fun c => decide (c.id ≠ item.id))), ""⟩) ∧
    ((∀ c ∈ sel, c.id ≠ item.id) → (∃ c ∈ sel, c.type = item.type) →
      item.type ≠ "Outerwear" → item.type ≠ "Top" →
      toggleClothing sel item
        = ⟨none, "Cannot wear two items of type: " ++ item.type
            ++ ". Remove the existing one first."⟩) ∧
    ((∀ c ∈ sel, c.id ≠ item.id) →
      ((∀ c ∈ sel, c.type ≠ item.type) ∨ item.type = "Outerwear" ∨ item.type = "Top") →
      toggleClothing sel item = ⟨some (sel ++ [item]), ""⟩) := by
  refine ⟨?_, ?_, ?_⟩
  · rintro ⟨c, hc, hid⟩
    have hany : sel.any (fun c => decide (c.id = item.id)) = true :=
      List.any_eq_true.mpr ⟨c, hc, by simpa using hid⟩
    simp only [toggleClothing, hany, if_true]
  · intro hnot hconf ho ht
    obtain ⟨c, hc, hty⟩ := hconf
    have hany : sel.any (fun c => decide (c.id = item.id)) = false := by
      rw [List.any_eq_false]
      intro x hx
      simpa using hnot x hx
    have hcon : sel.any (fun c => decide (c.type = item.type)) = true :=
      List.any_eq_true.mpr ⟨c, hc, by simpa using hty⟩
    simp [toggleClothing, hany, hcon, ho, ht]
  · intro hnot hfree
    have hany : sel.any (fun c => decide (c.id = item.id)) = false := by
      rw [List.any_eq_false]
      intro x hx
      simpa using hnot x hx
    rcases hfree with hfree | hfree | hfree
    · have hcon : sel.any (fun c => decide (c.type = item.type)) = false := by
        rw [List.any_eq_false]
        intro x hx
        simpa using hfree x hx
      simp [toggleClothing, hany, hcon]
    · simp [toggleClothing, hany, hfree]
    · simp [toggleClothing, hany, hfree]

/-- C19: from a selection with one item per type (Outerwear and Top exempt),
every list `toggleClothing` passes to `onToggleClothing` has that property
again; an item whose id is selected is removed (every entry of that id) and
the message cleared; an unselected item whose type is taken, the type being
neither Outerwear nor Top, is refused: `onToggleClothing` is not called and
the message, which names the type, is not the empty string. -/
theorem toggleClothing_keeps_one_per_type (sel : List Item) (item : Item)
    (hsel : oneItemPerType sel) :
    (∀ l, (toggleClothing sel item).toggled = some l → oneItemPerType l) ∧
    ((∃ c ∈ sel, c.id = item.id) →
      toggleClothing sel item
        = ⟨some (sel.filter (fun c => decide (c.id ≠ item.id))), ""⟩) ∧
    ((∀ c ∈ sel, c.id ≠ item.id) → (∃ c ∈ sel, c.type = item.type) →
      item.type ≠ "Outerwear" → item.type ≠ "Top" →
      (toggleClothing sel item).toggled = none ∧
      (toggleClothing sel item).message
        = "Cannot wear two items of type: " ++ item.type
            ++ ". Remove the existing one first." ∧
      (toggleClothing sel item).message ≠ "") := by
  obtain ⟨hsel1, hsel2, hsel3⟩ := toggleClothing_cases sel item
  refine ⟨?_, hsel1, ?_⟩
  · intro l hl
    by_cases hin : ∃ c ∈ sel, c.id = item.id
    · rw [hsel1 hin] at hl
      simp only [Option.some.injEq] at hl
      subst hl
      exact List.Pairwise.filter _ hsel
    · have hnot : ∀ c ∈ sel, c.id ≠ item.id := fun c hc hid => hin ⟨c, hc, hid⟩
      by_cases hfree : (∀ c ∈ sel, c.type ≠ item.type) ∨ item.type = "Outerwear"
          ∨ item.type = "Top"
      · rw [hsel3 hnot hfree] at hl
        simp only [Option.some.injEq] at hl
        subst hl
        unfold oneItemPerType
        rw [List.pairwise_append]
        refine ⟨hsel, List.pairwise_singleton _ _, ?_⟩
        intro a ha b hb hty
        rw [List.mem_singleton] at hb
        subst hb
        rcases hfree with hfree | hfree | hfree
        · exact absurd hty (hfree a ha)
        · exact Or.inl (hty.trans hfree)
        · exact Or.inr (hty.trans hfree)
      · have hconf : ∃ c ∈ sel, c.type = item.type := by
          by_contra hno
          exact hfree (Or.inl fun c hc hty => hno ⟨c, hc, hty⟩)
        have ho : item.type ≠ "Outerwear" := fun h => hfree (Or.inr (Or.inl h))
        have ht : item.type ≠ "Top" := fun h => hfree (Or.inr (Or.inr h))
        rw [hsel2 hnot hconf ho ht] at hl
        exact absurd hl (by simp)
  · intro hnot hconf ho ht
    rw [hsel2 hnot hconf ho ht]
    refine ⟨rfl, rfl, ?_⟩
    intro hempty
    have hlen := congrArg String.length hempty
    simp only [String.length_append] at hlen
    have hpos : 0 < ". Remove the existing one first.".length := by decide
    have hzero : "".length = 0 := rfl
    omega

/-- Witness for C19: blue jeans are worn and khaki shorts, of the same type
`Bottom`, are clicked. -/
theorem toggleClothing_keeps_one_per_type_witness :
    oneItemPerType [⟨"jeans-blue", "Blue Jeans", "Bottom", "#2563eb"⟩] ∧
    (toggleClothing [⟨"jeans-blue", "Blue Jeans", "Bottom", "#2563eb"⟩]
        ⟨"shorts-khaki", "Khaki Shorts", "Bottom", "#b45309"⟩).toggled = none ∧
    (toggleClothing [⟨"jeans-blue", "Blue Jeans", "Bottom", "#2563eb"⟩]
        ⟨"shorts-khaki", "Khaki Shorts", "Bottom", "#b45309"⟩).message
      = "Cannot wear two items of type: Bottom. Remove the existing one first." := by
  have hsel : oneItemPerType [⟨"jeans-blue", "Blue Jeans", "Bottom", "#2563eb"⟩] :=
    List.pairwise_singleton _ _
  obtain ⟨h1, h2, -⟩ :=
    (toggleClothing_keeps_one_per_type [⟨"jeans-blue", "Blue Jeans", "Bottom", "#2563eb"⟩]
      ⟨"shorts-khaki", "Khaki Shorts", "Bottom", "#b45309"⟩ hsel).2.2
      (by decide) ⟨_, List.mem_singleton.mpr rfl, rfl⟩ (by decide) (by decide)
  exact ⟨hsel, h1, h2.trans (by decide)⟩

end ClothingList
